import Mathlib

/-!
Verification development for the Behavioral_Auth_System repository.

This file gives a shallow embedding, in Lean 4, of the continuous
authentication core of the repository:

* backend/ml/feature_extractor.py  (class BehavioralFeatureExtractor)
* backend/ml/behavioral_analyzer.py (class BehavioralAnalyzer)
* app/database.py (the methods used by the realtime protocol)
* app/alerts.py (send_security_alert, as an observable effect)
* app/realtime.py (class RealtimeBehaviorService: message dispatch and the
  three message handlers)

Modelling conventions:

* Python floats are modelled as exact rationals.  The square root used by
  numpy std, np.hypot and np.arctan2 do not stay inside the rationals, so
  they are supplied through a FloatOps record of uninterpreted functions;
  no claim below depends on their numeric values.
* Raw JSON values reaching the extractor are modelled by the Payload and
  Entry types.  A well-formed event (a JSON object whose type, key,
  timestamp, dwellTime, x, y attributes have the expected types when
  present) is an Ev; Entry also has non-object constructors so that the
  dynamic type errors Python raises on malformed payloads are representable.
* Python exceptions are modelled with Except PErr (pure code) or with an
  Option PErr component of a handler result (stateful code), so that side
  effects performed before a raise are preserved.
* The fitted scikit-learn models (IsolationForest decision_function,
  RandomForest predict_proba composed with the scaler) are external to the
  repository; they are carried as opaque function-valued fields of the
  analyzer state, while the risk normalisation applied to their output is
  translated from the source.
-/

namespace BAuth

/-- Python exceptions that the modelled code can raise. -/
inductive PErr where
  | typeError
  | attributeError
  | sendError
  deriving DecidableEq, Repr

/-- Decidable equality of Except results, for concrete evaluation. -/
def exceptDecEq {ε α : Type} [DecidableEq ε] [DecidableEq α] : DecidableEq (Except ε α)
  | .error e, .error f =>
    if h : e = f then isTrue (by rw [h]) else isFalse (fun hh => by cases hh; exact h rfl)
  | .error _, .ok _ => isFalse (fun hh => by cases hh)
  | .ok _, .error _ => isFalse (fun hh => by cases hh)
  | .ok a, .ok b =>
    if h : a = b then isTrue (by rw [h]) else isFalse (fun hh => by cases hh; exact h rfl)

instance {ε α : Type} [DecidableEq ε] [DecidableEq α] : DecidableEq (Except ε α) :=
  exceptDecEq

/-- Uninterpreted real-valued operations used by numpy: square root (for
std), hypot, arctan2 and the constant pi.  Their values never decide a
branch that any claim depends on. -/
structure FloatOps where
  sqrt : ℚ → ℚ
  hypot : ℚ → ℚ → ℚ
  atan2 : ℚ → ℚ → ℚ
  pi : ℚ

/-- A well-formed input-device event: a JSON object whose fields, when
present, carry values of the expected types (translated from the fields
read by feature_extractor.py). -/
structure Ev where
  etype : Option String := none
  key : Option String := none
  timestamp : Option ℚ := none
  dwellTime : Option ℚ := none
  x : Option ℚ := none
  y : Option ℚ := none
  deriving DecidableEq, Repr

/-- An element of a JSON array handed to the extractor: either a
well-formed event object or a non-object JSON value. -/
inductive Entry where
  | ev (e : Ev)
  | num (q : ℚ)
  | str (s : String)
  | bool (b : Bool)
  | null
  deriving DecidableEq, Repr

/-- A JSON value standing where the code expects an event list
(keystrokeData, mouseData). -/
inductive Payload where
  | pylist (l : List Entry)
  | pynum (q : ℚ)
  | pystr (s : String)
  | pybool (b : Bool)
  | pynull
  deriving DecidableEq, Repr

/-- Python falsiness of a Payload (empty list, empty string, zero, False,
None). -/
def pyFalsy : Payload → Bool
  | .pylist l => l.isEmpty
  | .pynum q => q = 0
  | .pystr s => s = ""
  | .pybool b => !b
  | .pynull => true

/-- Python len() of a Payload; raises TypeError on values with no length. -/
def pyLen : Payload → Except PErr ℚ
  | .pylist l => .ok (l.length : ℚ)
  | .pystr s => .ok (s.length : ℚ)
  | _ => .error .typeError

/-- Python iteration over a Payload; a string yields its characters,
numbers, booleans and None raise TypeError. -/
def pyIter : Payload → Except PErr (List Entry)
  | .pylist l => .ok l
  | .pystr s => .ok (s.toList.map (fun c => .str (String.singleton c)))
  | _ => .error .typeError

/-- Contiguous-sublist test, used for the Python substring operator. -/
def listInfix (pat : List Char) : List Char → Bool
  | [] => pat.isEmpty
  | c :: rest => pat.isPrefixOf (c :: rest) || listInfix pat rest

/-- Membership test "timestamp" in e, as evaluated inside the list
comprehension of the extractor: key lookup for objects, substring test for
strings, TypeError for non-iterable values. -/
def hasTsKey : Entry → Except PErr Bool
  | .ev e => .ok e.timestamp.isSome
  | .str s => .ok (listInfix "timestamp".toList s.toList)
  | _ => .error .typeError

/-- Evaluation of the sort key e.get("timestamp", 0) on a kept entry; a
kept string entry raises AttributeError (strings have no get method). -/
def keyEv : Entry → Except PErr (ℚ × Ev)
  | .ev e => .ok (e.timestamp.getD 0, e)
  | _ => .error .attributeError

/-- Order on timestamp-keyed events used to sort a batch. -/
def leFst (a b : ℚ × Ev) : Prop := a.1 ≤ b.1

instance : DecidableRel leFst := fun a b => inferInstanceAs (Decidable (a.1 ≤ b.1))

instance : IsTotal (ℚ × Ev) leFst := ⟨fun a b => le_total a.1 b.1⟩

instance : IsTrans (ℚ × Ev) leFst := ⟨fun _ _ _ h1 h2 => le_trans h1 h2⟩

/-- Effectful map over a list, stopping at the first raised exception
(the evaluation order of a Python loop or comprehension). -/
def mapME {α β : Type} (f : α → Except PErr β) : List α → Except PErr (List β)
  | [] => .ok []
  | a :: as =>
    match f a with
    | .error e => .error e
    | .ok b =>
      match mapME f as with
      | .error e => .error e
      | .ok bs => .ok (b :: bs)

/-- Pairing of an entry with its "timestamp" in e membership flag. -/
def flagEntry (e : Entry) : Except PErr (Entry × Bool) :=
  match hasTsKey e with
  | .error err => .error err
  | .ok b => .ok (e, b)

/-- The shared front of both extractors:
sorted([e for e in data if "timestamp" in e], key=lambda e: e.get("timestamp", 0)).
Produces the batch as timestamp-keyed events in nondecreasing timestamp
order (Python sorted is stable, as is insertion sort). -/
def orderedOf (p : Payload) : Except PErr (List (ℚ × Ev)) :=
  match pyIter p with
  | .error e => .error e
  | .ok entries =>
    match mapME flagEntry entries with
    | .error e => .error e
    | .ok flagged =>
      let kept := (flagged.filter (fun q => q.2)).map (fun q => q.1)
      match mapME keyEv kept with
      | .error e => .error e
      | .ok keyed => .ok (List.insertionSort leFst keyed)

/-- Sorting of a plain rational list (list.sort() / sorted()). -/
def sortQ (l : List ℚ) : List ℚ := List.insertionSort (· ≤ ·) l

/-- The timestamp-keyed pairs of a well-formed batch before sorting: the
events that carry a timestamp, each paired with it. -/
def wfPairs (es : List Ev) : List (ℚ × Ev) :=
  (es.filter (fun e => e.timestamp.isSome)).map (fun e => (e.timestamp.getD 0, e))

/-- numpy mean. -/
def npMean (l : List ℚ) : ℚ := l.sum / (l.length : ℚ)

/-- numpy population variance (np.std squares to this). -/
def npVariance (l : List ℚ) : ℚ := npMean (l.map (fun x => (x - npMean l) ^ 2))

/-- numpy std: the square root of the population variance. -/
def npStd (ops : FloatOps) (l : List ℚ) : ℚ := ops.sqrt (npVariance l)

/-- numpy median: middle element, or mean of the two middle elements. -/
def npMedian (l : List ℚ) : ℚ :=
  let s := sortQ l
  let n := s.length
  if n = 0 then 0
  else if n % 2 = 1 then s.getD (n / 2) 0
  else (s.getD (n / 2 - 1) 0 + s.getD (n / 2) 0) / 2

/-- numpy 95th percentile with linear interpolation. -/
def npP95 (l : List ℚ) : ℚ :=
  let s := sortQ l
  let n := s.length
  if n = 0 then 0
  else
    let lo := 95 * (n - 1) / 100
    let h : ℚ := (95 * ((n : ℚ) - 1)) / 100
    let a := s.getD lo 0
    let b := s.getD (lo + 1) a
    a + (h - (lo : ℚ)) * (b - a)

/-- The _safe_stats helper: mean, std, median and 95th percentile of a
value list, all zero when the list is empty.  All modelled values are
finite rationals, so the np.isfinite filter of the source keeps every
element. -/
def safe_stats (ops : FloatOps) (values : List ℚ) (prefx : String) : List (String × ℚ) :=
  if values.isEmpty then
    [(prefx ++ "_mean", 0), (prefx ++ "_std", 0), (prefx ++ "_median", 0), (prefx ++ "_p95", 0)]
  else
    [(prefx ++ "_mean", npMean values), (prefx ++ "_std", npStd ops values),
     (prefx ++ "_median", npMedian values), (prefx ++ "_p95", npP95 values)]

/-- A feature dictionary: an association list in insertion order with
pairwise distinct keys (Python dict). -/
abbrev Features := List (String × ℚ)

/-- The documented all-zero keystroke default vector
(get_default_keystroke_features). -/
def get_default_keystroke_features : Features :=
  [("dwell_mean", 0), ("dwell_std", 0), ("dwell_median", 0), ("dwell_p95", 0),
   ("flight_mean", 0), ("flight_std", 0), ("flight_median", 0), ("flight_p95", 0),
   ("ikl_mean", 0), ("ikl_std", 0), ("ikl_median", 0), ("ikl_p95", 0),
   ("typing_speed", 0), ("keys_count", 0), ("active_duration_ms", 0), ("unique_keys", 0),
   ("backspace_frequency", 0), ("error_rate", 0), ("pause_ratio", 0),
   ("rhythm_consistency", 0), ("dwell_outlier_rate", 0)]

/-- The documented all-zero mouse default vector
(get_default_mouse_features). -/
def get_default_mouse_features : Features :=
  [("velocity_mean", 0), ("velocity_std", 0), ("velocity_median", 0), ("velocity_p95", 0),
   ("acceleration_mean", 0), ("acceleration_std", 0), ("acceleration_median", 0),
   ("acceleration_p95", 0), ("movement_efficiency", 0), ("direction_changes", 0),
   ("click_interval_mean", 0), ("click_interval_std", 0), ("click_interval_median", 0),
   ("click_interval_p95", 0), ("click_rate", 0), ("mouse_events_count", 0)]

/-- Per-key press queues: open_presses maps a logical key to the pending
keydown timestamps in arrival order.  The Python dict is represented by
its lookup function with default [], which is observationally what the
loop uses (setdefault-append, .get(key) or [], pop(0)). -/
abbrev PressQueues := String → List ℚ

/-- Pointwise queue replacement for one key. -/
def qUpd (f : PressQueues) (k : String) (q : List ℚ) : PressQueues :=
  fun k2 => if k2 = k then q else f k2

/-- One iteration of the dwell-computation loop of
extract_keystroke_features: keydowns enqueue their timestamp per key; a
keyup carrying a finite dwellTime contributes that value directly,
otherwise it is matched against the head of its key's queue (pop(0));
values outside [0, 3000] are discarded. -/
def dwellStep (st : PressQueues × List ℚ) (p : ℚ × Ev) : PressQueues × List ℚ :=
  let key := p.2.key.getD ""
  if p.2.etype = some "keydown" then
    (qUpd st.1 key (st.1 key ++ [p.1]), st.2)
  else if p.2.etype = some "keyup" then
    match p.2.dwellTime with
    | some d => if 0 ≤ d ∧ d ≤ 3000 then (st.1, st.2 ++ [d]) else (st.1, st.2)
    | none =>
      match st.1 key with
      | [] => (st.1, st.2)
      | t0 :: rest =>
        let d := p.1 - t0
        if 0 ≤ d ∧ d ≤ 3000 then (qUpd st.1 key rest, st.2 ++ [d])
        else (qUpd st.1 key rest, st.2)
  else st

/-- The dwell-time samples collected over a sorted batch. -/
def dwellTimesOf (l : List (ℚ × Ev)) : List ℚ := (l.foldl dwellStep (fun _ => [], [])).2

/-- Minimum value of a rational list. -/
def listMin : List ℚ → Option ℚ
  | [] => none
  | a :: as =>
    some (match listMin as with
      | none => a
      | some m => min a m)

/-- Removal of the first occurrence of a value. -/
def removeFirst (x : ℚ) : List ℚ → List ℚ
  | [] => []
  | a :: as => if a = x then as else a :: removeFirst x as

/-- Extraction of a minimum element: the earliest timestamp among the
pending ones, and the multiset that remains. -/
def removeMinQ (l : List ℚ) : Option (ℚ × List ℚ) :=
  (listMin l).map (fun m => (m, removeFirst m l))

/-- Modelled from the spec: one step of dwell matching as the claim states
it, where each keyup event is matched against the earliest unmatched
keydown timestamp of the same logical key (FIFO per key, not by position)
and the sample is release timestamp minus that press timestamp, kept only
inside [0, 3000].  This is the comparison point for the source-translated
dwellStep, which differs by preferring a keyup's own dwellTime field. -/
def specDwellStep (st : PressQueues × List ℚ) (p : ℚ × Ev) : PressQueues × List ℚ :=
  let key := p.2.key.getD ""
  if p.2.etype = some "keydown" then
    (qUpd st.1 key (st.1 key ++ [p.1]), st.2)
  else if p.2.etype = some "keyup" then
    match removeMinQ (st.1 key) with
    | none => st
    | some (t0, rest) =>
      let d := p.1 - t0
      if 0 ≤ d ∧ d ≤ 3000 then (qUpd st.1 key rest, st.2 ++ [d])
      else (qUpd st.1 key rest, st.2)
  else st

/-- Modelled from the spec: the dwell samples under earliest-unmatched
(FIFO) matching. -/
def specDwellTimes (l : List (ℚ × Ev)) : List ℚ :=
  (l.foldl specDwellStep (fun _ => [], [])).2

/-- Flight times: next press minus current release over the chronological
down/up lists, kept when within [-500, 3000]. -/
def flightList (down up : List ℚ) : List ℚ :=
  (List.range (min (down.length - 1) up.length)).filterMap (fun i =>
    let f := down.getD (i + 1) 0 - up.getD i 0
    if -500 ≤ f ∧ f ≤ 3000 then some f else none)

/-- Inter-key latencies: next press minus current press, kept when within
[0, 3000] (computed over the same index range as the flight times). -/
def iklList (down up : List ℚ) : List ℚ :=
  (List.range (min (down.length - 1) up.length)).filterMap (fun i =>
    let g := down.getD (i + 1) 0 - down.getD i 0
    if 0 ≤ g ∧ g ≤ 3000 then some g else none)

/-- Timestamp of the first event of a nonempty sorted batch. -/
def tsFirst (l : List (ℚ × Ev)) : ℚ := (l.head?.map (fun p => p.1)).getD 0

/-- Timestamp of the last event of a nonempty sorted batch. -/
def tsLast (l : List (ℚ × Ev)) : ℚ := (l.getLast?.map (fun p => p.1)).getD 0

/-- Dwell outlier rate: fraction of dwell samples whose robust z-score
(median absolute deviation scaled by 1.4826, offset 1e-6) exceeds 3.5. -/
def dwellOutlierRate (l : List ℚ) : ℚ :=
  let med := npMedian l
  let mad := npMedian (l.map (fun x => |x - med|)) + 1 / 1000000
  ((l.filter (fun x => (7 : ℚ) / 2 < |x - med| / ((14826 : ℚ) / 10000 * mad))).length : ℚ)
    / (l.length : ℚ)

/-- The pure tail of extract_keystroke_features, computed on the sorted
batch once the minimum-count guards have passed. -/
def keystrokeFeaturesOf (ops : FloatOps) (ordered : List (ℚ × Ev)) : Features :=
  let keydownEvents := ordered.filter (fun p => p.2.etype = some "keydown")
  let keyupEvents := ordered.filter (fun p => p.2.etype = some "keyup")
  let dwellTimes := dwellTimesOf ordered
  let downTs := sortQ (keydownEvents.map (fun p => p.1))
  let upTs := sortQ (keyupEvents.map (fun p => p.1))
  let flightTimes := flightList downTs upTs
  let iklLatencies := iklList downTs upTs
  let totalMs : ℚ := max 1 (tsLast ordered - tsFirst ordered)
  let totalS := totalMs / 1000
  let keyCount : ℚ := max 1 (keydownEvents.length : ℚ)
  let uniqueKeys : ℚ := ((keydownEvents.map (fun p => p.2.key.getD "")).dedup.length : ℚ)
  let corrections : ℚ :=
    ((keydownEvents.filter (fun p =>
      p.2.key.getD "" = "Backspace" ∨ p.2.key.getD "" = "Delete")).length : ℚ)
  let pauseRatio := ((iklLatencies.filter (fun v => 700 < v)).length : ℚ)
    / max 1 (iklLatencies.length : ℚ)
  let rhythm := if iklLatencies.isEmpty then 0 else npStd ops iklLatencies
  let outlier := if dwellTimes.isEmpty then 0 else dwellOutlierRate dwellTimes
  safe_stats ops dwellTimes "dwell" ++ safe_stats ops flightTimes "flight" ++
    safe_stats ops iklLatencies "ikl" ++
    [("typing_speed", keyCount / totalS), ("keys_count", keyCount),
     ("active_duration_ms", totalMs), ("unique_keys", uniqueKeys),
     ("backspace_frequency", corrections / keyCount), ("error_rate", corrections / keyCount),
     ("pause_ratio", pauseRatio), ("rhythm_consistency", rhythm),
     ("dwell_outlier_rate", outlier)]

/-- Translation of BehavioralFeatureExtractor.extract_keystroke_features. -/
def extract_keystroke_features (ops : FloatOps) (kd : Payload) : Except PErr Features :=
  if pyFalsy kd then .ok get_default_keystroke_features
  else
    match orderedOf kd with
    | .error e => .error e
    | .ok ordered =>
      if ordered.length < 6 then .ok get_default_keystroke_features
      else
        if (ordered.filter (fun p => p.2.etype = some "keydown")).length < 3 ∨
            (ordered.filter (fun p => p.2.etype = some "keyup")).length < 3 then
          .ok get_default_keystroke_features
        else .ok (keystrokeFeaturesOf ops ordered)

/-- Accumulator of the mouse-movement loop: previous velocity, velocity,
acceleration and direction-angle samples, cumulative path length. -/
structure MoveAcc where
  prevV : Option ℚ
  vels : List ℚ
  accs : List ℚ
  angles : List ℚ
  path : ℚ
  deriving Repr

/-- One iteration over a consecutive pair of move events; pairs with a
non-positive time delta are skipped without touching the state. -/
def moveStep (ops : FloatOps) (acc : MoveAcc) (pr cur : ℚ × Ev) : MoveAcc :=
  let dt := cur.1 - pr.1
  if dt ≤ 0 then acc
  else
    let dx := cur.2.x.getD 0 - pr.2.x.getD 0
    let dy := cur.2.y.getD 0 - pr.2.y.getD 0
    let dist := ops.hypot dx dy
    let v := dist / dt
    let accs := match acc.prevV with
      | some pv => acc.accs ++ [(v - pv) / dt]
      | none => acc.accs
    { prevV := some v, vels := acc.vels ++ [v], accs := accs,
      angles := acc.angles ++ [ops.atan2 dy dx], path := acc.path + dist }

/-- The whole movement loop over consecutive move-event pairs. -/
def movesFold (ops : FloatOps) (moves : List (ℚ × Ev)) : MoveAcc :=
  (List.zip moves moves.tail).foldl (fun a p => moveStep ops a p.1 p.2)
    ⟨none, [], [], [], 0⟩

/-- Count of direction changes: consecutive direction angles whose wrapped
absolute difference exceeds pi / 2. -/
def countDirChanges (ops : FloatOps) (angles : List ℚ) : ℕ :=
  (List.zip angles angles.tail).countP (fun p =>
    let delta := |p.2 - p.1|
    let d2 := if ops.pi < delta then 2 * ops.pi - delta else delta
    ops.pi / 2 < d2)

/-- np.clip(x, 0.0, 1.0). -/
def clip01 (x : ℚ) : ℚ := min (max x 0) 1

/-- The pure tail of extract_mouse_features, computed on the sorted batch
once the minimum-count guard has passed. -/
def mouseFeaturesOf (ops : FloatOps) (ordered : List (ℚ × Ev)) : Features :=
  let moveEvents := ordered.filter (fun p =>
    p.2.etype = some "mousemove" ∧ p.2.x.isSome ∧ p.2.y.isSome)
  let clickEvents := ordered.filter (fun p =>
    p.2.etype = some "click" ∨ p.2.etype = some "mousedown")
  let m := movesFold ops moveEvents
  let base : Features :=
    if 1 < moveEvents.length then
      let sx := (moveEvents.head?.map (fun p => p.2.x.getD 0)).getD 0
      let sy := (moveEvents.head?.map (fun p => p.2.y.getD 0)).getD 0
      let ex := (moveEvents.getLast?.map (fun p => p.2.x.getD 0)).getD 0
      let ey := (moveEvents.getLast?.map (fun p => p.2.y.getD 0)).getD 0
      let straight := ops.hypot (ex - sx) (ey - sy)
      let eff := if 0 < m.path then straight / m.path else 1
      [("movement_efficiency", clip01 eff),
       ("direction_changes", (countDirChanges ops m.angles : ℚ))]
    else [("movement_efficiency", 0), ("direction_changes", 0)]
  let clicks : Features :=
    if 1 < clickEvents.length then
      let clickTs := sortQ (clickEvents.map (fun p => p.1))
      let intervals := (List.zip clickTs clickTs.tail).filterMap (fun p =>
        if p.1 ≤ p.2 then some (p.2 - p.1) else none)
      let durationMs : ℚ := max 1 (tsLast ordered - tsFirst ordered)
      safe_stats ops intervals "click_interval" ++
        [("click_rate", (clickEvents.length : ℚ) * 1000 / durationMs)]
    else
      [("click_interval_mean", 0), ("click_interval_std", 0),
       ("click_interval_median", 0), ("click_interval_p95", 0), ("click_rate", 0)]
  base ++ safe_stats ops m.vels "velocity" ++ safe_stats ops m.accs "acceleration" ++
    clicks ++ [("mouse_events_count", (ordered.length : ℚ))]

/-- Translation of BehavioralFeatureExtractor.extract_mouse_features. -/
def extract_mouse_features (ops : FloatOps) (md : Payload) : Except PErr Features :=
  if pyFalsy md then .ok get_default_mouse_features
  else
    match orderedOf md with
    | .error e => .error e
    | .ok ordered =>
      if ordered.length < 5 then .ok get_default_mouse_features
      else .ok (mouseFeaturesOf ops ordered)

/-! ## Behavioral analyzer (backend/ml/behavioral_analyzer.py) -/

/-- Python dict assignment d[k] = v on an association list with pairwise
distinct keys: update in place when present, append otherwise. -/
def dictInsert {κ α : Type} [BEq κ] (l : List (κ × α)) (k : κ) (v : α) : List (κ × α) :=
  if (l.lookup k).isSome then l.map (fun p => if p.1 == k then (p.1, v) else p)
  else l ++ [(k, v)]

/-- Python dict deletion / .pop(k, None). -/
def removeKey {κ α : Type} [BEq κ] (l : List (κ × α)) (k : κ) : List (κ × α) :=
  l.filter (fun p => !(p.1 == k))

/-- The behavioral_data dictionary handed to the analyzer, with the
keystrokeData and mouseData fields already defaulted to empty lists when
absent (the .get defaults of extract_features). -/
structure BehavioralData where
  keystrokeData : Payload
  mouseData : Payload
  deriving DecidableEq, Repr

/-- A stored user profile: last features, last training data, and the
matrix the per-user IsolationForest was last fitted on (fitting is
deterministic, random_state=42, so the fitted model is a function of this
matrix). -/
structure UserProfileE where
  features : Features
  trainKd : Payload
  trainMd : Payload
  fitted : List (List ℚ)

/-- State of a BehavioralAnalyzer.  The two function-valued fields stand
for the external scikit-learn models, which are not part of this
repository: iforest maps a training matrix and a feature row to the
decision_function value of the IsolationForest fitted on that matrix;
globalProba maps a feature row to the maximum predict_proba of the fitted
scaler+classifier pipeline.  featureHistory models the user_feature_history
attribute that app/realtime.py reads but whose definition is not under
src/ (Modelled from the spec: the realtime handlers only read its per-user
sample count for informational logging). -/
structure AnalyzerState where
  userProfiles : List (Option String × UserProfileE)
  isTrained : Bool
  globalProba : List ℚ → ℚ
  iforest : List (List ℚ) → List ℚ → ℚ
  featureHistory : List (Option String × List Features)

/-- extract_features: both modality extractions merged into one dict (the
key sets of the two modalities are disjoint, so the {**k, **m} merge is
concatenation). -/
def extract_features (ops : FloatOps) (bd : BehavioralData) : Except PErr Features :=
  match extract_keystroke_features ops bd.keystrokeData with
  | .error e => .error e
  | .ok k =>
    match extract_mouse_features ops bd.mouseData with
    | .error e => .error e
    | .ok m => .ok (k ++ m)

/-- Sorted union of the feature names of a feature-dict list. -/
def sortedKeys (fl : List Features) : List String :=
  List.insertionSort (fun a b : String => a ≤ b)
    ((fl.foldl (fun acc f => acc ++ f.map Prod.fst) []).dedup)

/-- prepare_feature_matrix: one row per feature dict, columns the sorted
union of feature names, missing names defaulting to 0. -/
def prepare_feature_matrix (fl : List Features) : List (List ℚ) :=
  if fl.isEmpty then []
  else
    let keys := sortedKeys fl
    fl.map (fun f => keys.map (fun k => (f.lookup k).getD 0))

/-- create_user_profile: extract features from the given behavioral data,
store the profile and fit the user-specific IsolationForest on the
single-row matrix.  A Python None behavioral_data raises AttributeError
inside extract_features. -/
def create_user_profile (ops : FloatOps) (a : AnalyzerState) (uid : Option String)
    (bd : Option BehavioralData) : Except PErr AnalyzerState :=
  match bd with
  | none => .error .attributeError
  | some b =>
    match extract_features ops b with
    | .error e => .error e
    | .ok f =>
      let entry : UserProfileE := ⟨f, b.keystrokeData, b.mouseData, prepare_feature_matrix [f]⟩
      .ok { a with userProfiles := dictInsert a.userProfiles uid entry }

/-- analyze_with_user_model: decision_function of the user's fitted
IsolationForest on the single feature row, normalised by
max(0, min(1, (0.5 - anomaly) / 1.0)). -/
def analyze_with_user_model (a : AnalyzerState) (f : Features) (uid : Option String) : ℚ :=
  match a.userProfiles.lookup uid with
  | none => 0
  | some p =>
    let row := (prepare_feature_matrix [f]).headD []
    let anomaly := a.iforest p.fitted row
    max 0 (min 1 ((1 / 2 - anomaly) / 1))

/-- analyze_with_global_model: 0.0 when the global model has never been
trained, otherwise one minus the maximum class probability. -/
def analyze_with_global_model (a : AnalyzerState) (f : Features) : ℚ :=
  if !a.isTrained then 0
  else 1 - a.globalProba ((prepare_feature_matrix [f]).headD [])

/-- Python truthiness of an optional string. -/
def truthyO : Option String → Bool
  | none => false
  | some s => s ≠ ""

/-- analyze_real_time: extract features, fall back to 0.0 for an empty
feature dict, route to the user-specific model when user_id is truthy and
profiled, else to the global model. -/
def analyze_real_time (ops : FloatOps) (a : AnalyzerState) (kd md : Payload)
    (uid : Option String) : Except PErr ℚ :=
  match extract_features ops ⟨kd, md⟩ with
  | .error e => .error e
  | .ok f =>
    if f.isEmpty then .ok 0
    else if truthyO uid && (a.userProfiles.lookup uid).isSome then
      .ok (analyze_with_user_model a f uid)
    else .ok (analyze_with_global_model a f)

/-- update_user_profile: create the profile when absent, otherwise replace
features and training data and refit the user model on the new single-row
matrix.  The feedback argument is unused by the source. -/
def update_user_profile (ops : FloatOps) (a : AnalyzerState) (uid : Option String)
    (bd : Option BehavioralData) : Except PErr AnalyzerState :=
  if (a.userProfiles.lookup uid).isNone then create_user_profile ops a uid bd
  else
    match bd with
    | none => .error .attributeError
    | some b =>
      match extract_features ops b with
      | .error e => .error e
      | .ok f =>
        let entry : UserProfileE := ⟨f, b.keystrokeData, b.mouseData, prepare_feature_matrix [f]⟩
        .ok { a with userProfiles := dictInsert a.userProfiles uid entry }

/-! ## Database collaborator (app/database.py) -/

/-- A users-table row (the columns the realtime protocol reads). -/
structure UserRec where
  uid : Nat
  isActive : Bool
  deriving DecidableEq, Repr

/-- A security_events row. -/
structure SecEvent where
  username : Option String
  sessionId : Option String
  risk : Option ℚ
  etype : String
  reason : String
  deriving DecidableEq, Repr

/-- Database state: users keyed by username, the append-only
security_events table, and the behavioral_profiles writes (keyed calls,
merge semantics abstracted). -/
structure DbState where
  users : List (String × UserRec)
  events : List SecEvent
  saved : List (Nat × Option String × ℚ)
  deriving DecidableEq, Repr

/-- Row lookup by username; a Python None username matches no row. -/
def dbLookup (db : DbState) (u : Option String) : Option UserRec :=
  match u with
  | none => none
  | some s => db.users.lookup s

/-- get_user: none models both a missing row and a caught database
exception (the source returns success=False for both); the fail flag is
the exception oracle. -/
def get_user (fail : Bool) (db : DbState) (u : Option String) : Option UserRec :=
  if fail then none else dbLookup db u

/-- is_user_blocked: false when the lookup does not succeed, otherwise
true exactly when is_active is 0. -/
def is_user_blocked (fail : Bool) (db : DbState) (u : Option String) : Bool :=
  match get_user fail db u with
  | none => false
  | some r => !r.isActive

/-- log_security_event: appends one row, or does nothing when the write
fails (the source catches the exception and returns success=False). -/
def log_security_event (fail : Bool) (db : DbState) (username : Option String)
    (etype reason : String) (sid : Option String) (risk : Option ℚ) : DbState :=
  if fail then db
  else { db with events := db.events ++ [⟨username, sid, risk, etype, reason⟩] }

/-- block_user: sets is_active to false for the matching username (a no-op
when no row matches) and appends one ANOMALY_BLOCK security event; returns
whether a row was updated.  On failure the state is unchanged. -/
def block_user (fail : Bool) (db : DbState) (username : Option String)
    (sid : Option String) (risk : ℚ) (reason : String) : DbState × Bool :=
  if fail then (db, false)
  else
    let users := match username with
      | none => db.users
      | some s => db.users.map (fun p => if p.1 = s then (p.1, { p.2 with isActive := false }) else p)
    let events := db.events ++ [⟨username, sid, some risk, "ANOMALY_BLOCK", reason⟩]
    ({ db with users := users, events := events }, (dbLookup db username).isSome)

/-- save_behavioral_profile: records the keyed write (append/merge
details abstracted); failure is caught in the source. -/
def save_behavioral_profile (fail : Bool) (db : DbState) (uid : Nat)
    (sid : Option String) (risk : ℚ) : DbState :=
  if fail then db else { db with saved := db.saved ++ [(uid, sid, risk)] }

/-! ## Realtime protocol (app/realtime.py) -/

/-- Alert severity attached to an analysis_result. -/
inductive AlertLevel where
  | HIGH
  | MEDIUM
  deriving DecidableEq, Repr

/-- Outbound frames (JSON frames modelled structurally; the informational
riskExplanation of analysis_result comes from get_last_explanation, whose
definition is not under src/ and which the spec does not list among the
outbound fields, so it is omitted). -/
inductive Frame where
  | analysisResult (sessionId : Option String) (risk : ℚ) (alert : Option AlertLevel)
  | sessionTerminated (sessionId userId : Option String) (risk : ℚ) (reason : String)
  | authenticationSuccess (userId : Option String)
  | feedbackReceived
  | errorMsg (msg : String)
  deriving DecidableEq, Repr

/-- Observable effects of handling one message, in program order.  The ok
flag of a collaborator call records whether the call succeeded; every
effect listed here is one the source performs at that point. -/
inductive Eff where
  | record (name : String)
  | logEvent (etype : String) (ok : Bool)
  | blockUser (ok : Bool)
  | saveProfile (uid : Nat)
  | alert (ok : Bool)
  | sendFrame (ws : Nat) (f : Frame) (ok : Bool)
  | closeWs (ws : Nat) (code : Nat)
  deriving DecidableEq, Repr

/-- A user_sessions entry. -/
structure SessionEntry where
  username : Option String
  ws : Nat
  risk : ℚ
  deriving DecidableEq, Repr

/-- State owned by a RealtimeBehaviorService. -/
structure SvcState where
  db : DbState
  analyzer : AnalyzerState
  userSessions : List (Option String × SessionEntry)

/-- The two risk thresholds of app/config.py (both default 0.7). -/
structure Settings where
  anomaly_block_threshold : ℚ
  high_risk_threshold : ℚ

/-- Outcome oracle for the external collaborators: each flag tells whether
the corresponding I/O call raises during this message. -/
structure Oracle where
  getFail : Bool := false
  blockFail : Bool := false
  logFail : Bool := false
  saveFail : Bool := false
  alertFail : Bool := false
  sendFail : Bool := false
  termSendFail : Bool := false

/-- A parsed inbound message: the fields the dispatcher and the three
handlers read, each optional exactly as data.get makes them. -/
structure Msg where
  mtype : Option String := none
  userId : Option String := none
  sessionId : Option String := none
  keystrokeData : Option Payload := none
  mouseData : Option Payload := none
  behavioralData : Option BehavioralData := none
  feedback : Option String := none

/-- Result of handling a message: the state and effect trace produced up
to normal completion or up to the point where an exception escaped. -/
abbrev HRes := SvcState × List Eff × Option PErr

/-- The termination reason used on every blocked path. -/
def blockedReason : String := "User account is blocked due to behavioral anomaly detection"

/-- _terminate_session: best-effort session_terminated frame and close
when the session table knows the session's websocket (send and close
failures are swallowed), then the session entry is dropped. -/
def terminate_session (o : Oracle) (st : SvcState) (sid username : Option String)
    (risk : ℚ) (reason : String) : SvcState × List Eff :=
  let effs := match st.userSessions.lookup sid with
    | some entry =>
      [Eff.sendFrame entry.ws (.sessionTerminated sid username risk reason) (!o.termSendFail),
       Eff.closeWs entry.ws 1008]
    | none => []
  ({ st with userSessions := removeKey st.userSessions sid },
   effs ++ [.record "session_terminated"])

/-- _handle_behavioral_data.  The receipt log evaluates len() of both
payloads first (raising TypeError on unsized values); a blocked user is
audited and terminated without scoring; otherwise the sample is scored,
the session upserted, the sample persisted for known users, and either the
block path (block_user, then the REALTIME_ANOMALY_BLOCK audit write, then
the alert, then termination) or an analysis_result response runs. -/
def handle_behavioral_data (o : Oracle) (ops : FloatOps) (cfg : Settings)
    (st : SvcState) (ws : Nat) (m : Msg) : HRes :=
  let username := m.userId
  let sid := m.sessionId
  let kd := m.keystrokeData.getD (.pylist [])
  let md := m.mouseData.getD (.pylist [])
  match pyLen kd with
  | .error e => (st, [], some e)
  | .ok _ =>
  match pyLen md with
  | .error e => (st, [], some e)
  | .ok _ =>
  let effs0 := [Eff.record "behavioral_received"]
  if is_user_blocked o.getFail st.db username then
    let db1 := log_security_event o.logFail st.db username "BLOCKED_USER_ACTIVITY"
      "Blocked user attempted behavioral_data" sid (some 1)
    let tr := terminate_session o { st with db := db1 } sid username 1 blockedReason
    (tr.1, effs0 ++ [.logEvent "BLOCKED_USER_ACTIVITY" (!o.logFail)] ++ tr.2, none)
  else
  match analyze_real_time ops st.analyzer kd md username with
  | .error e => (st, effs0, some e)
  | .ok risk =>
    let effs1 := effs0 ++ [Eff.record "behavioral_scored"]
    let st1 := { st with userSessions := dictInsert st.userSessions sid ⟨username, ws, risk⟩ }
    let saveStep : SvcState × List Eff :=
      match get_user o.getFail st1.db username with
      | some u =>
        ({ st1 with db := save_behavioral_profile o.saveFail st1.db u.uid sid risk },
         [Eff.saveProfile u.uid])
      | none => (st1, [])
    let st2 := saveStep.1
    let effs2 := effs1 ++ saveStep.2
    if cfg.anomaly_block_threshold ≤ risk then
      let reason := "Behavioral anomaly detected in real-time monitoring"
      let effs3 := effs2 ++ [Eff.record "behavioral_blocked"]
      let bu := block_user o.blockFail st2.db username sid risk reason
      let db4 := log_security_event o.logFail bu.1 username "REALTIME_ANOMALY_BLOCK"
        reason sid (some risk)
      let effs4 := effs3 ++ [Eff.blockUser (!o.blockFail),
        Eff.logEvent "REALTIME_ANOMALY_BLOCK" (!o.logFail), Eff.alert (!o.alertFail)]
      let tr := terminate_session o { st2 with db := db4 } sid username risk reason
      (tr.1, effs4 ++ tr.2, none)
    else
      let alertLv : Option AlertLevel :=
        if cfg.high_risk_threshold < risk then some .HIGH
        else if (1 : ℚ) / 2 < risk then some .MEDIUM
        else none
      if o.sendFail then (st2, effs2, some .sendError)
      else (st2, effs2 ++ [Eff.sendFrame ws (.analysisResult sid risk alertLv) true], none)

/-- _handle_user_authentication: blocked users are audited and terminated;
otherwise a profile is created on empty behavioral data when absent, the
profile state is logged, and authentication_success is sent (the final
send is not wrapped in a try block). -/
def handle_user_authentication (o : Oracle) (ops : FloatOps) (st : SvcState)
    (ws : Nat) (m : Msg) : HRes :=
  let username := m.userId
  let sid := m.sessionId
  let effs0 := [Eff.record "user_auth_message"]
  if is_user_blocked o.getFail st.db username then
    let db1 := log_security_event o.logFail st.db username "BLOCKED_USER_AUTH_ATTEMPT"
      "Blocked user attempted user_authentication" sid (some 1)
    let tr := terminate_session o { st with db := db1 } sid username 1 blockedReason
    (tr.1, effs0 ++ [.logEvent "BLOCKED_USER_AUTH_ATTEMPT" (!o.logFail)] ++ tr.2, none)
  else
    let createRes : Except PErr AnalyzerState :=
      if (st.analyzer.userProfiles.lookup username).isNone then
        create_user_profile ops st.analyzer username (some ⟨.pylist [], .pylist []⟩)
      else .ok st.analyzer
    match createRes with
    | .error e => (st, effs0, some e)
    | .ok an1 =>
      let st1 := { st with analyzer := an1 }
      let effs1 := effs0 ++ [Eff.record "profile_state"]
      if o.sendFail then (st1, effs1, some .sendError)
      else (st1, effs1 ++ [Eff.sendFrame ws (.authenticationSuccess username) true], none)

/-- _handle_feedback: blocked users are audited and terminated; otherwise
the user profile is updated from the supplied behavioral data (exceptions
from a missing or malformed behavioralData escape) and feedback_received
is sent. -/
def handle_feedback (o : Oracle) (ops : FloatOps) (st : SvcState)
    (ws : Nat) (m : Msg) : HRes :=
  let username := m.userId
  let sid := m.sessionId
  if is_user_blocked o.getFail st.db username then
    let db1 := log_security_event o.logFail st.db username "BLOCKED_USER_FEEDBACK"
      "Blocked user attempted feedback" sid (some 1)
    let tr := terminate_session o { st with db := db1 } sid username 1 blockedReason
    (tr.1, [.logEvent "BLOCKED_USER_FEEDBACK" (!o.logFail)] ++ tr.2, none)
  else
    match update_user_profile ops st.analyzer username m.behavioralData with
    | .error e => (st, [], some e)
    | .ok an1 =>
      let st1 := { st with analyzer := an1 }
      let effs1 := [Eff.record "profile_updated"]
      if o.sendFail then (st1, effs1, some .sendError)
      else (st1, effs1 ++ [Eff.sendFrame ws .feedbackReceived true], none)

/-- A received text frame: either unparseable JSON or a parsed message. -/
inductive Inbound where
  | invalidJson
  | parsed (m : Msg)

/-- _process_message: malformed JSON is answered with a typed error frame;
then the identity-mismatch guard (both identities Python-truthy and
different) closes the connection before dispatch; otherwise the message is
dispatched on its type discriminator, unknown types being logged only. -/
def process_message (o : Oracle) (ops : FloatOps) (cfg : Settings) (st : SvcState)
    (ws : Nat) (authUser : Option String) (inb : Inbound) : HRes :=
  match inb with
  | .invalidJson =>
    if o.sendFail then (st, [.record "ws_message_invalid"], some .sendError)
    else (st, [.record "ws_message_invalid",
      .sendFrame ws (.errorMsg "Invalid JSON format") true], none)
  | .parsed m =>
    if truthyO authUser && truthyO m.userId && !(authUser == m.userId) then
      (st, [.record "ws_user_mismatch", .closeWs ws 1008], none)
    else if m.mtype = some "behavioral_data" then handle_behavioral_data o ops cfg st ws m
    else if m.mtype = some "user_authentication" then handle_user_authentication o ops st ws m
    else if m.mtype = some "feedback" then handle_feedback o ops st ws m
    else (st, [.record "ws_message_unknown"], none)

/-- get_user_by_id: row lookup by numeric id, none on a failed lookup. -/
def get_user_by_id (fail : Bool) (db : DbState) (i : Nat) : Option UserRec :=
  if fail then none else (db.users.find? (fun p => p.2.uid = i)).map (fun p => p.2)

/-- is_user_id_blocked: false when the lookup does not succeed, otherwise
true exactly when is_active is 0. -/
def is_user_id_blocked (fail : Bool) (db : DbState) (i : Nat) : Bool :=
  match get_user_by_id fail db i with
  | none => false
  | some r => !r.isActive

/-- Recogniser for a session_terminated frame send in a trace. -/
def isTermFrameEff : Eff → Bool
  | .sendFrame _ (.sessionTerminated _ _ _ _) _ => true
  | _ => false

/-- Recogniser for an analysis_result frame send in a trace. -/
def isAnalysisFrameEff : Eff → Bool
  | .sendFrame _ (.analysisResult _ _ _) _ => true
  | _ => false

/-- Recogniser for a security-event write attempt in a trace. -/
def isLogEff : Eff → Bool
  | .logEvent _ _ => true
  | _ => false

/-- The audit event kinds written only on the blocked paths. -/
def blockedEventTypes : List String :=
  ["BLOCKED_USER_ACTIVITY", "BLOCKED_USER_AUTH_ATTEMPT", "BLOCKED_USER_FEEDBACK"]

/-- A concrete FloatOps instance for witnesses and counterexamples; no
claim below depends on the values these operations return. -/
def zeroOps : FloatOps := ⟨fun _ => 0, fun _ _ => 0, fun _ _ => 0, 0⟩

/-- An analyzer that has never been trained and knows no profiles, with
the external model functions instantiated constantly. -/
def emptyAnalyzer : AnalyzerState := ⟨[], false, fun _ => 0, fun _ _ => 0, []⟩

/-- A batch with overlapping presses of one key: FIFO matching pairs the
first release with the first press. -/
def fifoBatch : List Ev :=
  [{ etype := some "keydown", key := some "a", timestamp := some 0 },
   { etype := some "keydown", key := some "a", timestamp := some 10 },
   { etype := some "keyup", key := some "a", timestamp := some 100 },
   { etype := some "keyup", key := some "a", timestamp := some 150 },
   { etype := some "keydown", key := some "b", timestamp := some 200 },
   { etype := some "keyup", key := some "b", timestamp := some 230 }]

/-- A batch meeting the minimum-count precondition in which one keyup
carries a client-supplied dwellTime of 999 while its FIFO-matched press
would give 50. -/
def dwellFieldBatch : List Ev :=
  [{ etype := some "keydown", key := some "a", timestamp := some 0 },
   { etype := some "keyup", key := some "a", timestamp := some 50, dwellTime := some 999 },
   { etype := some "keydown", key := some "b", timestamp := some 100 },
   { etype := some "keyup", key := some "b", timestamp := some 130 },
   { etype := some "keydown", key := some "c", timestamp := some 200 },
   { etype := some "keyup", key := some "c", timestamp := some 260 }]

/-- An empty user store. -/
def emptyDb : DbState := ⟨[], [], []⟩

/-- A service state with an empty store, untrained analyzer, no sessions. -/
def svcEmpty : SvcState := ⟨emptyDb, emptyAnalyzer, []⟩

/-- The default thresholds of app/config.py. -/
def cfgDefault : Settings := ⟨7 / 10, 7 / 10⟩

/-- An oracle under which every collaborator call succeeds. -/
def oracleOk : Oracle := {}

/-- A behavioral_data message whose keystrokeData is a list holding a
bare number instead of an event object. -/
def badKeystrokeMsg : Msg :=
  { mtype := some "behavioral_data", userId := some "alice", sessionId := some "s1",
    keystrokeData := some (.pylist [.num 1]) }

/-- A store whose only user, bob, is blocked (is_active false). -/
def dbBlockedBob : DbState := ⟨[("bob", ⟨7, false⟩)], [], []⟩

/-- A service state in which bob is blocked. -/
def svcBlockedBob : SvcState := ⟨dbBlockedBob, emptyAnalyzer, []⟩

/-- A behavioral_data message from the blocked user bob whose
keystrokeData is a bare number (len() raises on it). -/
def badBlockedMsg : Msg :=
  { mtype := some "behavioral_data", userId := some "bob", sessionId := some "s1",
    keystrokeData := some (.pynum 5) }

/-- A user_authentication message from the blocked user bob. -/
def bobAuthMsg : Msg :=
  { mtype := some "user_authentication", userId := some "bob", sessionId := some "s1" }

/-- A behavioral_data message claiming the empty-string userId. -/
def emptyUserMsg : Msg :=
  { mtype := some "behavioral_data", userId := some "", sessionId := some "s1" }

/-- An analyzer whose trained global model assigns maximum class
probability 1/5 to every row, so every sample scores 4/5. -/
def riskyAnalyzer : AnalyzerState := ⟨[], true, fun _ => 1 / 5, fun _ _ => 0, []⟩

/-- A service state with the risky trained analyzer and an empty store. -/
def svcGhost : SvcState := ⟨emptyDb, riskyAnalyzer, []⟩

/-- A behavioral_data message from a userId unknown to the user store. -/
def ghostMsg : Msg :=
  { mtype := some "behavioral_data", userId := some "ghost", sessionId := some "s1" }

/-- A store whose only user, alice, is active. -/
def dbAliceActive : DbState := ⟨[("alice", ⟨1, true⟩)], [], []⟩

/-- A service state in which alice is active and unprofiled. -/
def svcAlice : SvcState := ⟨dbAliceActive, emptyAnalyzer, []⟩

/-- A user_authentication message from alice. -/
def authAliceMsg : Msg :=
  { mtype := some "user_authentication", userId := some "alice", sessionId := some "s1" }

/-- A store whose only user, carol, is active. -/
def dbCarolActive : DbState := ⟨[("carol", ⟨2, true⟩)], [], []⟩

/-- A service state where carol exists and every sample scores 4/5. -/
def svcCarol : SvcState := ⟨dbCarolActive, riskyAnalyzer, []⟩

/-- A behavioral_data message from carol with empty payloads. -/
def carolMsg : Msg :=
  { mtype := some "behavioral_data", userId := some "carol", sessionId := some "s1" }

/-- A stored profile for alice fitted on the empty-data default features. -/
def aliceProfileE : UserProfileE :=
  ⟨get_default_keystroke_features ++ get_default_mouse_features, .pylist [], .pylist [],
    prepare_feature_matrix [get_default_keystroke_features ++ get_default_mouse_features]⟩

/-- An untrained analyzer that already holds a profile for alice. -/
def profiledAnalyzer : AnalyzerState :=
  ⟨[(some "alice", aliceProfileE)], false, fun _ => 0, fun _ _ => 0, []⟩

/-- A service state where alice is active and already profiled. -/
def svcAliceProfiled : SvcState := ⟨dbAliceActive, profiledAnalyzer, []⟩

/-! ## Dwell matching (claim C9) -/

theorem qUpd_self (f : PressQueues) (k : String) (q : List ℚ) : qUpd f k q k = q := by
  simp [qUpd]

theorem qUpd_ne (f : PressQueues) {k k2 : String} (q : List ℚ) (h : k2 ≠ k) :
    qUpd f k q k2 = f k2 := by
  simp [qUpd, h]

theorem sortedQ_append_one {q : List ℚ} {t : ℚ} (hq : List.Sorted (· ≤ ·) q)
    (hb : ∀ x ∈ q, x ≤ t) : List.Sorted (· ≤ ·) (q ++ [t]) := by
  induction q with
  | nil => simp
  | cons a as ih =>
    rw [List.cons_append, List.sorted_cons]
    rw [List.sorted_cons] at hq
    refine ⟨?_, ih hq.2 (fun x hx => hb x (List.mem_cons_of_mem a hx))⟩
    intro b hb2
    rcases List.mem_append.mp hb2 with h1 | h2
    · exact hq.1 b h1
    · simp at h2
      exact h2 ▸ hb a (List.mem_cons_self a as)

theorem listMin_mem {l : List ℚ} {m : ℚ} (h : listMin l = some m) : m ∈ l := by
  induction l generalizing m with
  | nil => simp [listMin] at h
  | cons a as ih =>
    simp only [listMin] at h
    rcases hm : listMin as with _ | m2
    · rw [hm] at h
      simp at h
      simp [h]
    · rw [hm] at h
      simp at h
      rcases le_total a m2 with hle | hle
      · rw [min_eq_left hle] at h
        simp [h]
      · rw [min_eq_right hle] at h
        exact List.mem_cons_of_mem a (h ▸ ih hm)

theorem listMin_sorted_head {a : ℚ} {l : List ℚ} (h : ∀ x ∈ l, a ≤ x) :
    listMin (a :: l) = some a := by
  simp only [listMin]
  rcases hm : listMin l with _ | m2
  · rfl
  · have : a ≤ m2 := h m2 (listMin_mem hm)
    simp [min_eq_left this]

theorem removeFirst_head (a : ℚ) (l : List ℚ) : removeFirst a (a :: l) = l := by
  simp [removeFirst]

theorem removeMinQ_sorted_head {a : ℚ} {l : List ℚ} (h : ∀ x ∈ l, a ≤ x) :
    removeMinQ (a :: l) = some (a, l) := by
  simp [removeMinQ, listMin_sorted_head h, removeFirst_head]

theorem dwell_fold_eq :
    ∀ (l : List (ℚ × Ev)) (f : PressQueues) (acc : List ℚ),
      (∀ p ∈ l, p.2.etype = some "keyup" → p.2.dwellTime = none) →
      List.Sorted leFst l →
      (∀ k x, x ∈ f k → ∀ p ∈ l, x ≤ p.1) →
      (∀ k, List.Sorted (· ≤ ·) (f k)) →
      List.foldl dwellStep (f, acc) l = List.foldl specDwellStep (f, acc) l
  | [], _, _, _, _, _, _ => rfl
  | p :: rest, f, acc, hnd, hsort, hbound, hsorted => by
    have hsort2 : List.Sorted leFst rest := hsort.of_cons
    have hrel : ∀ q ∈ rest, p.1 ≤ q.1 := fun q hq => List.rel_of_sorted_cons hsort q hq
    have hnd2 : ∀ q ∈ rest, q.2.etype = some "keyup" → q.2.dwellTime = none :=
      fun q hq => hnd q (List.mem_cons_of_mem p hq)
    simp only [List.foldl_cons]
    by_cases hkd : p.2.etype = some "keydown"
    · have e1 : dwellStep (f, acc) p =
          (qUpd f (p.2.key.getD "") (f (p.2.key.getD "") ++ [p.1]), acc) := by
        simp [dwellStep, hkd]
      have e2 : specDwellStep (f, acc) p =
          (qUpd f (p.2.key.getD "") (f (p.2.key.getD "") ++ [p.1]), acc) := by
        simp [specDwellStep, hkd]
      rw [e1, e2]
      refine dwell_fold_eq rest _ acc hnd2 hsort2 ?_ ?_
      · intro k x hx q hq
        by_cases hk : k = p.2.key.getD ""
        · rw [hk, qUpd_self] at hx
          rcases List.mem_append.mp hx with hx1 | hx2
          · exact hbound _ x hx1 q (List.mem_cons_of_mem p hq)
          · simp at hx2
            exact hx2 ▸ hrel q hq
        · rw [qUpd_ne f _ hk] at hx
          exact hbound k x hx q (List.mem_cons_of_mem p hq)
      · intro k
        by_cases hk : k = p.2.key.getD ""
        · rw [hk, qUpd_self]
          exact sortedQ_append_one (hsorted _)
            (fun x hx => hbound _ x hx p (List.mem_cons_self p rest))
        · rw [qUpd_ne f _ hk]
          exact hsorted k
    · by_cases hku : p.2.etype = some "keyup"
      · have hdt : p.2.dwellTime = none := hnd p (List.mem_cons_self p rest) hku
        rcases hq : f (p.2.key.getD "") with _ | ⟨t0, rq⟩
        · have e1 : dwellStep (f, acc) p = (f, acc) := by
            simp [dwellStep, hkd, hku, hdt, hq]
          have e2 : specDwellStep (f, acc) p = (f, acc) := by
            simp [specDwellStep, hkd, hku, hq, removeMinQ, listMin]
          rw [e1, e2]
          exact dwell_fold_eq rest f acc hnd2 hsort2
            (fun k x hx q hq2 => hbound k x hx q (List.mem_cons_of_mem p hq2)) hsorted
        · have hsq : List.Sorted (· ≤ ·) (t0 :: rq) := hq ▸ hsorted (p.2.key.getD "")
          have hmin : removeMinQ (t0 :: rq) = some (t0, rq) :=
            removeMinQ_sorted_head (fun x hx => List.rel_of_sorted_cons hsq x hx)
          have estep : dwellStep (f, acc) p = specDwellStep (f, acc) p := by
            simp only [dwellStep, specDwellStep, if_neg hkd, if_pos hku, hdt, hq, hmin]
          rw [estep]
          have hout : specDwellStep (f, acc) p =
              (qUpd f (p.2.key.getD "") rq,
               if 0 ≤ p.1 - t0 ∧ p.1 - t0 ≤ 3000 then acc ++ [p.1 - t0] else acc) := by
            simp only [specDwellStep, if_neg hkd, if_pos hku, hq, hmin]
            split <;> rfl
          rw [hout]
          refine dwell_fold_eq rest _ _ hnd2 hsort2 ?_ ?_
          · intro k x hx q hq2
            by_cases hk : k = p.2.key.getD ""
            · rw [hk, qUpd_self] at hx
              refine hbound (p.2.key.getD "") x ?_ q (List.mem_cons_of_mem p hq2)
              rw [hq]
              exact List.mem_cons_of_mem t0 hx
            · rw [qUpd_ne f _ hk] at hx
              exact hbound k x hx q (List.mem_cons_of_mem p hq2)
          · intro k
            by_cases hk : k = p.2.key.getD ""
            · rw [hk, qUpd_self]
              exact hsq.of_cons
            · rw [qUpd_ne f _ hk]
              exact hsorted k
      · have e1 : dwellStep (f, acc) p = (f, acc) := by
          simp [dwellStep, hkd, hku]
        have e2 : specDwellStep (f, acc) p = (f, acc) := by
          simp [specDwellStep, hkd, hku]
        rw [e1, e2]
        exact dwell_fold_eq rest f acc hnd2 hsort2
          (fun k x hx q hq2 => hbound k x hx q (List.mem_cons_of_mem p hq2)) hsorted

/-! ## The well-formed extraction pipeline -/

theorem mapME_flagEntry_ev (es : List Ev) :
    mapME flagEntry (es.map Entry.ev) =
      Except.ok (es.map (fun e => (Entry.ev e, e.timestamp.isSome))) := by
  induction es with
  | nil => rfl
  | cons a as ih => simp [mapME, flagEntry, hasTsKey, ih]

theorem mapME_keyEv_ev (es : List Ev) :
    mapME keyEv (es.map Entry.ev) =
      Except.ok (es.map (fun e => (e.timestamp.getD 0, e))) := by
  induction es with
  | nil => rfl
  | cons a as ih => simp [mapME, keyEv, ih]

theorem orderedOf_wf (es : List Ev) :
    orderedOf (.pylist (es.map Entry.ev)) =
      Except.ok (List.insertionSort leFst (wfPairs es)) := by
  have hkept : ((es.map (fun e => (Entry.ev e, e.timestamp.isSome))).filter
      (fun q => q.2)).map (fun q => q.1) =
      (es.filter (fun e => e.timestamp.isSome)).map Entry.ev := by
    rw [List.filter_map, List.map_map]
    rfl
  unfold orderedOf
  simp only [pyIter, mapME_flagEntry_ev, hkept, mapME_keyEv_ev]
  rfl

theorem sortedBatch_filter_le (es : List Ev) (g : Ev → Bool) :
    ((List.insertionSort leFst (wfPairs es)).filter (fun p => g p.2)).length ≤
      (es.filter g).length := by
  rw [← List.countP_eq_length_filter, ← List.countP_eq_length_filter]
  calc (List.insertionSort leFst (wfPairs es)).countP (fun p => g p.2)
      = (wfPairs es).countP (fun p => g p.2) :=
        (List.perm_insertionSort leFst (wfPairs es)).countP_eq _
    _ = (es.filter (fun e => e.timestamp.isSome)).countP g := by
        rw [wfPairs, List.countP_map]
        rfl
    _ = es.countP (fun e => g e && e.timestamp.isSome) := List.countP_filter ..
    _ ≤ es.countP g := List.countP_mono_left (fun e _ hb => Bool.and_elim_left hb)

theorem extract_keystroke_insufficient (ops : FloatOps) (es : List Ev)
    (h : es.length < 6 ∨ (es.filter (fun e => e.etype = some "keydown")).length < 3 ∨
      (es.filter (fun e => e.etype = some "keyup")).length < 3) :
    extract_keystroke_features ops (.pylist (es.map Entry.ev)) =
      .ok get_default_keystroke_features := by
  cases es with
  | nil => rfl
  | cons a as =>
    unfold extract_keystroke_features
    rw [orderedOf_wf]
    have hfal : pyFalsy (.pylist ((a :: as).map Entry.ev)) = false := rfl
    rw [hfal]
    simp only [Bool.false_eq_true, if_false]
    have hlenL : (List.insertionSort leFst (wfPairs (a :: as))).length ≤ (a :: as).length := by
      rw [List.length_insertionSort, wfPairs, List.length_map]
      exact List.length_filter_le _ _
    by_cases h6 : (List.insertionSort leFst (wfPairs (a :: as))).length < 6
    · rw [if_pos h6]
    · rw [if_neg h6]
      have hkd := sortedBatch_filter_le (a :: as) (fun e => e.etype = some "keydown")
      have hku := sortedBatch_filter_le (a :: as) (fun e => e.etype = some "keyup")
      have hor : ((List.insertionSort leFst (wfPairs (a :: as))).filter
            (fun p => p.2.etype = some "keydown")).length < 3 ∨
          ((List.insertionSort leFst (wfPairs (a :: as))).filter
            (fun p => p.2.etype = some "keyup")).length < 3 := by
        rcases h with h | h | h
        · omega
        · exact Or.inl (lt_of_le_of_lt hkd h)
        · exact Or.inr (lt_of_le_of_lt hku h)
      rw [if_pos hor]

theorem extract_mouse_insufficient (ops : FloatOps) (es : List Ev)
    (h : es.length < 5) :
    extract_mouse_features ops (.pylist (es.map Entry.ev)) =
      .ok get_default_mouse_features := by
  cases es with
  | nil => rfl
  | cons a as =>
    unfold extract_mouse_features
    rw [orderedOf_wf]
    have hfal : pyFalsy (.pylist ((a :: as).map Entry.ev)) = false := rfl
    rw [hfal]
    simp only [Bool.false_eq_true, if_false]
    have hlenL : (List.insertionSort leFst (wfPairs (a :: as))).length ≤ (a :: as).length := by
      rw [List.length_insertionSort, wfPairs, List.length_map]
      exact List.length_filter_le _ _
    have h5 : (List.insertionSort leFst (wfPairs (a :: as))).length < 5 := by omega
    rw [if_pos h5]

/-- C8: for a keystroke batch of well-formed events with fewer than 6
events, or fewer than 3 keydown events, or fewer than 3 keyup events,
extraction returns exactly the documented all-zero keystroke default; for
a pointer batch with fewer than 5 events it returns exactly the all-zero
mouse default.  Neither extraction raises or returns a partially
populated vector. -/
theorem claim_C8_insufficient_batch_default (ops : FloatOps) (ks ms : List Ev)
    (hk : ks.length < 6 ∨ (ks.filter (fun e => e.etype = some "keydown")).length < 3 ∨
      (ks.filter (fun e => e.etype = some "keyup")).length < 3)
    (hm : ms.length < 5) :
    extract_keystroke_features ops (.pylist (ks.map Entry.ev)) =
        .ok get_default_keystroke_features ∧
      extract_mouse_features ops (.pylist (ms.map Entry.ev)) =
        .ok get_default_mouse_features :=
  ⟨extract_keystroke_insufficient ops ks hk, extract_mouse_insufficient ops ms hm⟩

/-- Witness for C8 at a concrete 4-event batch. -/
theorem claim_C8_insufficient_batch_default_witness :
    (fifoBatch.take 4).length < 6 ∧ (fifoBatch.take 4).length < 5 ∧
      (extract_keystroke_features zeroOps (.pylist ((fifoBatch.take 4).map Entry.ev)) =
          .ok get_default_keystroke_features ∧
        extract_mouse_features zeroOps (.pylist ((fifoBatch.take 4).map Entry.ev)) =
          .ok get_default_mouse_features) :=
  ⟨by decide, by decide,
    claim_C8_insufficient_batch_default zeroOps (fifoBatch.take 4) (fifoBatch.take 4)
      (Or.inl (by decide)) (by decide)⟩


/-- C9 (amended): over any batch of well-formed events in which no keyup
carries a finite dwellTime field, the dwell samples the extractor collects
on the sorted batch are exactly those of earliest-unmatched (FIFO per
logical key) matching, with samples outside [0, 3000] discarded; a keyup
that does carry a finite dwellTime contributes that client-supplied value
directly instead of a matched difference. -/
theorem claim_C9_dwell_fifo_matching (es : List Ev)
    (hnd : ∀ e ∈ es, e.etype = some "keyup" → e.dwellTime = none) :
    ∃ L, orderedOf (.pylist (es.map Entry.ev)) = .ok L ∧
      dwellTimesOf L = specDwellTimes L := by
  refine ⟨_, orderedOf_wf es, ?_⟩
  unfold dwellTimesOf specDwellTimes
  rw [dwell_fold_eq (List.insertionSort leFst (wfPairs es)) (fun _ => []) []
    ?_ ?_ ?_ ?_]
  · intro p hp hku
    rw [List.mem_insertionSort] at hp
    rcases List.mem_map.mp hp with ⟨e, he, hpe⟩
    have he2 : e ∈ es := List.mem_of_mem_filter he
    have : p.2 = e := by rw [← hpe]
    rw [this] at hku ⊢
    exact hnd e he2 hku
  · exact List.sorted_insertionSort leFst _
  · intro k x hx
    simp at hx
  · intro k
    exact List.sorted_nil

/-- Witness for C9 at a batch with overlapping presses of one key. -/
theorem claim_C9_dwell_fifo_matching_witness :
    (∀ e ∈ fifoBatch, e.etype = some "keyup" → e.dwellTime = none) ∧
      ∃ L, orderedOf (.pylist (fifoBatch.map Entry.ev)) = .ok L ∧
        dwellTimesOf L = specDwellTimes L :=
  ⟨by decide, claim_C9_dwell_fifo_matching fifoBatch (by decide)⟩

set_option maxRecDepth 4000 in
/-- Counterexample to C9 as stated: dwellFieldBatch meets the
minimum-count precondition (6 events, 3 keydowns, 3 keyups), yet the first
collected dwell sample is the client-supplied dwellTime 999 rather than
the FIFO-matched difference 50, so the extracted dwell samples differ
from earliest-unmatched matching. -/
theorem claim_C9_dwell_fifo_matching_counterexample :
    dwellFieldBatch.length = 6 ∧
      (dwellFieldBatch.filter (fun e => e.etype = some "keydown")).length = 3 ∧
      (dwellFieldBatch.filter (fun e => e.etype = some "keyup")).length = 3 ∧
      ∃ L, orderedOf (.pylist (dwellFieldBatch.map Entry.ev)) = .ok L ∧
        dwellTimesOf L = [999, 30, 60] ∧ specDwellTimes L = [50, 30, 60] ∧
        dwellTimesOf L ≠ specDwellTimes L := by
  refine ⟨by decide, by decide, by decide, List.insertionSort leFst (wfPairs dwellFieldBatch),
    orderedOf_wf dwellFieldBatch, ?_, ?_, ?_⟩ <;> with_unfolding_all decide


/-! ## Extraction totality on well-formed batches, and scoring defaults -/

theorem extract_keystroke_wf_ok (ops : FloatOps) (es : List Ev) :
    ∃ f, extract_keystroke_features ops (.pylist (es.map Entry.ev)) = .ok f := by
  cases es with
  | nil => exact ⟨_, rfl⟩
  | cons a as =>
    unfold extract_keystroke_features
    rw [orderedOf_wf]
    have hfal : pyFalsy (.pylist ((a :: as).map Entry.ev)) = false := rfl
    rw [hfal]
    simp only [Bool.false_eq_true, if_false]
    split
    · exact ⟨_, rfl⟩
    · split
      · exact ⟨_, rfl⟩
      · exact ⟨_, rfl⟩

theorem extract_mouse_wf_ok (ops : FloatOps) (es : List Ev) :
    ∃ f, extract_mouse_features ops (.pylist (es.map Entry.ev)) = .ok f := by
  cases es with
  | nil => exact ⟨_, rfl⟩
  | cons a as =>
    unfold extract_mouse_features
    rw [orderedOf_wf]
    have hfal : pyFalsy (.pylist ((a :: as).map Entry.ev)) = false := rfl
    rw [hfal]
    simp only [Bool.false_eq_true, if_false]
    split
    · exact ⟨_, rfl⟩
    · exact ⟨_, rfl⟩

theorem extract_features_wf_ok (ops : FloatOps) (ks ms : List Ev) :
    ∃ f, extract_features ops ⟨.pylist (ks.map Entry.ev), .pylist (ms.map Entry.ev)⟩ =
      .ok f := by
  obtain ⟨fk, hfk⟩ := extract_keystroke_wf_ok ops ks
  obtain ⟨fm, hfm⟩ := extract_mouse_wf_ok ops ms
  exact ⟨fk ++ fm, by unfold extract_features; rw [hfk, hfm]⟩

/-- C6: on any well-formed behavioral sample, when the global model has
never been trained and the per-user profile table has no entry for the
given userId, real-time scoring returns exactly 0. -/
theorem claim_C6_untrained_unprofiled_scores_zero (ops : FloatOps) (a : AnalyzerState)
    (ks ms : List Ev) (uid : Option String)
    (hti : a.isTrained = false)
    (hnp : a.userProfiles.lookup uid = none) :
    analyze_real_time ops a (.pylist (ks.map Entry.ev)) (.pylist (ms.map Entry.ev)) uid =
      .ok 0 := by
  obtain ⟨f, hf⟩ := extract_features_wf_ok ops ks ms
  unfold analyze_real_time
  rw [hf]
  have hglob : analyze_with_global_model a f = 0 := by
    unfold analyze_with_global_model
    rw [hti]
    rfl
  rw [hnp]
  simp only [Option.isSome_none, Bool.and_false, Bool.false_eq_true, if_false, hglob]
  split <;> rfl

/-- Witness for C6 at the untrained, profile-free analyzer. -/
theorem claim_C6_untrained_unprofiled_scores_zero_witness :
    emptyAnalyzer.isTrained = false ∧
      emptyAnalyzer.userProfiles.lookup (some "alice") = none ∧
      analyze_real_time zeroOps emptyAnalyzer (.pylist []) (.pylist []) (some "alice") =
        .ok 0 :=
  ⟨rfl, rfl,
    claim_C6_untrained_unprofiled_scores_zero zeroOps emptyAnalyzer [] [] (some "alice")
      rfl rfl⟩

/-- C5 (code-bug evidence): a behavioral_data message from a non-blocked
user whose keystrokeData holds a bare number makes the extractor raise
TypeError ("timestamp" in 1 is not a valid membership test), the raise
escapes the handler with no response frame sent, and the session loop
receives the exception, contrary to the documented degrade-to-default
behavior on malformed input. -/
theorem claim_C5_malformed_payload_raises :
    is_user_blocked false svcEmpty.db (some "alice") = false ∧
      extract_keystroke_features zeroOps (.pylist [Entry.num 1]) = .error .typeError ∧
      (process_message oracleOk zeroOps cfgDefault svcEmpty 3 none (.parsed badKeystrokeMsg)).2 =
        ([Eff.record "behavioral_received"], some PErr.typeError) := by
  refine ⟨rfl, rfl, ?_⟩
  with_unfolding_all decide


/-! ## Association-list and collaborator-state lemmas -/

theorem lookup_map_update {κ α : Type} [BEq κ] [LawfulBEq κ] (l : List (κ × α)) (k : κ) (v : α) :
    (l.map (fun p => if p.1 == k then (p.1, v) else p)).lookup k =
      (l.lookup k).map (fun _ => v) := by
  induction l with
  | nil => rfl
  | cons p rest ih =>
    rcases p with ⟨a, b⟩
    by_cases hak : a = k
    · subst hak
      have hcond : (a == a) = true := by simp
      rw [List.map_cons, if_pos hcond, List.lookup_cons, List.lookup_cons]
      simp only [hcond]
      rfl
    · have hcond : (a == k) = false := by simp [hak]
      have h2 : (k == a) = false := by simp [Ne.symm hak]
      rw [List.map_cons, if_neg (by simp [hcond]), List.lookup_cons, List.lookup_cons]
      simp only [h2]
      exact ih

theorem lookup_append_of_none {κ α : Type} [BEq κ] (l l2 : List (κ × α)) (k : κ)
    (h : l.lookup k = none) : (l ++ l2).lookup k = l2.lookup k := by
  induction l with
  | nil => rfl
  | cons p rest ih =>
    rcases p with ⟨a, b⟩
    cases hkp : (k == a) with
    | true =>
      simp only [List.lookup_cons, hkp] at h
      exact Option.noConfusion h
    | false =>
      simp only [List.lookup_cons, hkp] at h
      simp only [List.cons_append, List.lookup_cons, hkp]
      exact ih h

theorem lookup_dictInsert_self {κ α : Type} [BEq κ] [LawfulBEq κ] (l : List (κ × α))
    (k : κ) (v : α) : (dictInsert l k v).lookup k = some v := by
  unfold dictInsert
  split
  · rename_i h
    rw [lookup_map_update]
    obtain ⟨w, hw⟩ := Option.isSome_iff_exists.mp h
    rw [hw]
    rfl
  · rename_i h
    rw [lookup_append_of_none l _ k (Option.not_isSome_iff_eq_none.mp h)]
    simp [List.lookup_cons]

theorem lookup_removeKey_self {κ α : Type} [BEq κ] [LawfulBEq κ] (l : List (κ × α)) (k : κ) :
    (removeKey l k).lookup k = none := by
  induction l with
  | nil => rfl
  | cons p rest ih =>
    rcases p with ⟨a, b⟩
    by_cases hak : a = k
    · have h1 : (((a, b) : κ × α).1 == k) = true := by simp [hak]
      simp only [removeKey] at ih ⊢
      rw [List.filter_cons]
      simp only [h1, Bool.not_true, if_false]
      exact ih
    · have h1 : (((a, b) : κ × α).1 == k) = false := by simp [hak]
      have h2 : (k == a) = false := by simp [Ne.symm hak]
      simp only [removeKey] at ih ⊢
      rw [List.filter_cons]
      simp only [h1, Bool.not_false, if_true, List.lookup_cons, h2]
      exact ih

theorem lookup_map_block (users : List (String × UserRec)) (s : String) :
    (users.map (fun p => if p.1 = s then (p.1, { p.2 with isActive := false }) else p)).lookup s =
      (users.lookup s).map (fun r => { r with isActive := false }) := by
  induction users with
  | nil => rfl
  | cons p rest ih =>
    rcases p with ⟨a, b⟩
    by_cases hak : a = s
    · subst hak
      rw [List.map_cons, if_pos rfl, List.lookup_cons, List.lookup_cons]
      simp only [beq_self_eq_true]
      rfl
    · have h2 : (s == a) = false := by simp [Ne.symm hak]
      rw [List.map_cons, if_neg hak, List.lookup_cons, List.lookup_cons]
      simp only [h2]
      exact ih

theorem save_behavioral_profile_events (f : Bool) (db : DbState) (uid : Nat)
    (sid : Option String) (r : ℚ) :
    (save_behavioral_profile f db uid sid r).events = db.events := by
  unfold save_behavioral_profile
  split <;> rfl

theorem save_behavioral_profile_users (f : Bool) (db : DbState) (uid : Nat)
    (sid : Option String) (r : ℚ) :
    (save_behavioral_profile f db uid sid r).users = db.users := by
  unfold save_behavioral_profile
  split <;> rfl

theorem is_user_blocked_of_active (f : Bool) (db : DbState) (u : Option String)
    (r : UserRec) (hu : dbLookup db u = some r) (hact : r.isActive = true) :
    is_user_blocked f db u = false := by
  unfold is_user_blocked get_user
  cases f with
  | true => rfl
  | false => simp [hu, hact]


/-! ## The anomaly-block path of the behavioral handler -/

theorem handle_behavioral_block_run (o : Oracle) (ops : FloatOps) (cfg : Settings)
    (st : SvcState) (ws : Nat) (m : Msg) (u : UserRec) (r : ℚ) (kl ml : List Entry)
    (hkd : m.keystrokeData.getD (.pylist []) = .pylist kl)
    (hmd : m.mouseData.getD (.pylist []) = .pylist ml)
    (hu : dbLookup st.db m.userId = some u)
    (hact : u.isActive = true)
    (hr : analyze_real_time ops st.analyzer (.pylist kl) (.pylist ml) m.userId = .ok r)
    (hth : cfg.anomaly_block_threshold ≤ r)
    (hget : o.getFail = false) (hblock : o.blockFail = false) :
    handle_behavioral_data o ops cfg st ws m =
      ({ db := log_security_event o.logFail
            (block_user false (save_behavioral_profile o.saveFail st.db u.uid m.sessionId r)
              m.userId m.sessionId r "Behavioral anomaly detected in real-time monitoring").1
            m.userId "REALTIME_ANOMALY_BLOCK"
            "Behavioral anomaly detected in real-time monitoring" m.sessionId (some r),
          analyzer := st.analyzer,
          userSessions := removeKey (dictInsert st.userSessions m.sessionId ⟨m.userId, ws, r⟩)
            m.sessionId },
       [.record "behavioral_received", .record "behavioral_scored", .saveProfile u.uid,
        .record "behavioral_blocked", .blockUser true,
        .logEvent "REALTIME_ANOMALY_BLOCK" (!o.logFail), .alert (!o.alertFail),
        .sendFrame ws (.sessionTerminated m.sessionId m.userId r
          "Behavioral anomaly detected in real-time monitoring") (!o.termSendFail),
        .closeWs ws 1008, .record "session_terminated"],
       none) := by
  have hnb : is_user_blocked o.getFail st.db m.userId = false :=
    is_user_blocked_of_active o.getFail st.db m.userId u hu hact
  unfold handle_behavioral_data
  rw [hkd, hmd]
  simp only [pyLen, hnb, Bool.false_eq_true, if_false, hr]
  simp only [hget, hblock, get_user, Bool.false_eq_true, if_false, hu]
  rw [if_pos hth]
  unfold terminate_session
  rw [lookup_dictInsert_self]
  rfl


theorem log_security_event_users (f : Bool) (db : DbState) (u : Option String)
    (etype reason : String) (sid : Option String) (risk : Option ℚ) :
    (log_security_event f db u etype reason sid risk).users = db.users := by
  unfold log_security_event
  split <;> rfl

theorem block_user_ok_users_some (db : DbState) (s : String) (sid : Option String)
    (r : ℚ) (reason : String) :
    ((block_user false db (some s) sid r reason).1).users =
      db.users.map (fun p => if p.1 = s then (p.1, { p.2 with isActive := false }) else p) := rfl

theorem block_user_ok_events (db : DbState) (u : Option String) (sid : Option String)
    (r : ℚ) (reason : String) :
    ((block_user false db u sid r reason).1).events =
      db.events ++ [⟨u, sid, some r, "ANOMALY_BLOCK", reason⟩] := rfl

theorem is_user_blocked_after_block (logFail saveFail : Bool) (db : DbState) (s : String)
    (u : UserRec) (uid2 : Nat) (sid sid2 : Option String) (r r2 : ℚ)
    (reason etype reason2 : String) (risk2 : Option ℚ)
    (hu : db.users.lookup s = some u) :
    is_user_blocked false
      (log_security_event logFail
        (block_user false (save_behavioral_profile saveFail db uid2 sid2 r2)
          (some s) sid r reason).1
        (some s) etype reason2 sid risk2)
      (some s) = true := by
  simp only [is_user_blocked, get_user, dbLookup, Bool.false_eq_true, if_false]
  rw [log_security_event_users, block_user_ok_users_some, save_behavioral_profile_users,
    lookup_map_block, hu]
  rfl

/-- C1 (amended): for a behavioral_data message from a non-blocked user
that exists in the user store, with the scored risk at or above the
configured anomaly_block_threshold and the account-disable and audit
writes succeeding, the handler disables the account (is_user_blocked
becomes true), writes exactly one REALTIME_ANOMALY_BLOCK security event,
sends exactly one best-effort session_terminated frame, sends no
analysis_result, and drops the session entry.  For a userId with no row
in the user store the disable write updates nothing and the identity
stays unblocked (see the counterexample). -/
theorem claim_C1_block_path_known_user (o : Oracle) (ops : FloatOps) (cfg : Settings)
    (st : SvcState) (ws : Nat) (m : Msg) (u : UserRec) (r : ℚ) (kl ml : List Entry)
    (hkd : m.keystrokeData.getD (.pylist []) = .pylist kl)
    (hmd : m.mouseData.getD (.pylist []) = .pylist ml)
    (hu : dbLookup st.db m.userId = some u)
    (hact : u.isActive = true)
    (hr : analyze_real_time ops st.analyzer (.pylist kl) (.pylist ml) m.userId = .ok r)
    (hth : cfg.anomaly_block_threshold ≤ r)
    (hget : o.getFail = false) (hblock : o.blockFail = false) (hlog : o.logFail = false) :
    ∃ st2 effs,
      handle_behavioral_data o ops cfg st ws m = (st2, effs, none) ∧
      is_user_blocked false st2.db m.userId = true ∧
      (st2.db.events.filter (fun e => e.etype = "REALTIME_ANOMALY_BLOCK")).length =
        (st.db.events.filter (fun e => e.etype = "REALTIME_ANOMALY_BLOCK")).length + 1 ∧
      (effs.filter isTermFrameEff).length = 1 ∧
      effs.filter isAnalysisFrameEff = [] ∧
      st2.userSessions.lookup m.sessionId = none := by
  obtain ⟨s, hs⟩ : ∃ s, m.userId = some s := by
    cases hmu : m.userId with
    | none => rw [hmu] at hu; exact absurd hu (by simp [dbLookup])
    | some s => exact ⟨s, rfl⟩
  have hus : st.db.users.lookup s = some u := by
    rw [hs] at hu; exact hu
  refine ⟨_, _,
    handle_behavioral_block_run o ops cfg st ws m u r kl ml hkd hmd hu hact hr hth hget hblock,
    ?_, ?_, ?_, ?_, ?_⟩
  · rw [hs]
    exact is_user_blocked_after_block o.logFail o.saveFail st.db s u u.uid m.sessionId
      m.sessionId r r "Behavioral anomaly detected in real-time monitoring"
      "REALTIME_ANOMALY_BLOCK" "Behavioral anomaly detected in real-time monitoring"
      (some r) hus
  · rw [hlog]
    show ((log_security_event false _ _ _ _ _ _).events.filter _).length = _
    rw [show (log_security_event false
        (block_user false (save_behavioral_profile o.saveFail st.db u.uid m.sessionId r)
          m.userId m.sessionId r "Behavioral anomaly detected in real-time monitoring").1
        m.userId "REALTIME_ANOMALY_BLOCK"
        "Behavioral anomaly detected in real-time monitoring" m.sessionId (some r)).events =
      (block_user false (save_behavioral_profile o.saveFail st.db u.uid m.sessionId r)
          m.userId m.sessionId r "Behavioral anomaly detected in real-time monitoring").1.events ++
        [⟨m.userId, m.sessionId, some r, "REALTIME_ANOMALY_BLOCK",
          "Behavioral anomaly detected in real-time monitoring"⟩] from rfl]
    rw [block_user_ok_events, save_behavioral_profile_events]
    rw [List.filter_append, List.filter_append, List.length_append, List.length_append]
    norm_num
    decide
  · simp [isTermFrameEff, List.filter_cons]
  · simp [isAnalysisFrameEff, List.filter_cons]
  · exact lookup_removeKey_self _ _

/-- Witness for C1 at carol, an existing active user scoring 4/5. -/
theorem claim_C1_block_path_known_user_witness :
    dbLookup svcCarol.db (some "carol") = some ⟨2, true⟩ ∧
      analyze_real_time zeroOps svcCarol.analyzer (.pylist []) (.pylist [])
        (some "carol") = .ok (4 / 5) ∧
      cfgDefault.anomaly_block_threshold ≤ (4 : ℚ) / 5 ∧
      ∃ st2 effs,
        handle_behavioral_data oracleOk zeroOps cfgDefault svcCarol 3 carolMsg =
          (st2, effs, none) ∧
        is_user_blocked false st2.db carolMsg.userId = true ∧
        (st2.db.events.filter (fun e => e.etype = "REALTIME_ANOMALY_BLOCK")).length =
          (svcCarol.db.events.filter (fun e => e.etype = "REALTIME_ANOMALY_BLOCK")).length + 1 ∧
        (effs.filter isTermFrameEff).length = 1 ∧
        effs.filter isAnalysisFrameEff = [] ∧
        st2.userSessions.lookup carolMsg.sessionId = none :=
  ⟨rfl, by with_unfolding_all decide, by with_unfolding_all decide,
    claim_C1_block_path_known_user oracleOk zeroOps cfgDefault svcCarol 3 carolMsg
      ⟨2, true⟩ (4 / 5) [] [] rfl rfl rfl rfl (by with_unfolding_all decide)
      (by with_unfolding_all decide) rfl rfl rfl⟩

/-- Counterexample to C1 as stated: the userId ghost is unknown to the
user store, hence non-blocked, and its sample scores 4/5, at or above the
0.7 threshold; the handler runs the whole block path without raising, yet
afterwards is_user_blocked is still false for ghost, because the
account-disable UPDATE matched no row. -/
theorem claim_C1_block_path_known_user_counterexample :
    is_user_blocked false svcGhost.db (some "ghost") = false ∧
      dbLookup svcGhost.db (some "ghost") = none ∧
      analyze_real_time zeroOps svcGhost.analyzer (.pylist []) (.pylist [])
        (some "ghost") = .ok (4 / 5) ∧
      cfgDefault.anomaly_block_threshold ≤ (4 : ℚ) / 5 ∧
      (handle_behavioral_data oracleOk zeroOps cfgDefault svcGhost 3 ghostMsg).2.2 = none ∧
      is_user_blocked false
        (handle_behavioral_data oracleOk zeroOps cfgDefault svcGhost 3 ghostMsg).1.db
        (some "ghost") = false := by
  refine ⟨rfl, rfl, ?_, ?_, ?_, ?_⟩ <;> with_unfolding_all decide

/-- C2: on the anomaly-block path (risk at or above the block threshold,
user present in the store, account-disable write succeeding), the
account-disable write is invoked strictly before the REALTIME_ANOMALY_BLOCK
audit write, which precedes alert delivery; audit-write or alert-delivery
failure (any values of logFail and alertFail) is swallowed: the handler
still completes without raising, the local block takes effect, and the
session is terminated. -/
theorem claim_C2_block_then_log_then_alert (o : Oracle) (ops : FloatOps) (cfg : Settings)
    (st : SvcState) (ws : Nat) (m : Msg) (u : UserRec) (r : ℚ) (kl ml : List Entry)
    (hkd : m.keystrokeData.getD (.pylist []) = .pylist kl)
    (hmd : m.mouseData.getD (.pylist []) = .pylist ml)
    (hu : dbLookup st.db m.userId = some u)
    (hact : u.isActive = true)
    (hr : analyze_real_time ops st.analyzer (.pylist kl) (.pylist ml) m.userId = .ok r)
    (hth : cfg.anomaly_block_threshold ≤ r)
    (hget : o.getFail = false) (hblock : o.blockFail = false) :
    ∃ st2 pre post,
      handle_behavioral_data o ops cfg st ws m =
        (st2, pre ++ [Eff.blockUser true, Eff.logEvent "REALTIME_ANOMALY_BLOCK" (!o.logFail),
          Eff.alert (!o.alertFail)] ++ post, none) ∧
      is_user_blocked false st2.db m.userId = true ∧
      st2.userSessions.lookup m.sessionId = none ∧
      Eff.record "session_terminated" ∈ post := by
  obtain ⟨s, hs⟩ : ∃ s, m.userId = some s := by
    cases hmu : m.userId with
    | none => rw [hmu] at hu; exact absurd hu (by simp [dbLookup])
    | some s => exact ⟨s, rfl⟩
  have hus : st.db.users.lookup s = some u := by
    rw [hs] at hu; exact hu
  refine ⟨SvcState.mk
    (log_security_event o.logFail
      (block_user false (save_behavioral_profile o.saveFail st.db u.uid m.sessionId r)
        m.userId m.sessionId r "Behavioral anomaly detected in real-time monitoring").1
      m.userId "REALTIME_ANOMALY_BLOCK"
      "Behavioral anomaly detected in real-time monitoring" m.sessionId (some r))
    st.analyzer
    (removeKey (dictInsert st.userSessions m.sessionId ⟨m.userId, ws, r⟩) m.sessionId),
    [.record "behavioral_received", .record "behavioral_scored", .saveProfile u.uid,
      .record "behavioral_blocked"],
    [.sendFrame ws (.sessionTerminated m.sessionId m.userId r
      "Behavioral anomaly detected in real-time monitoring") (!o.termSendFail),
     .closeWs ws 1008, .record "session_terminated"], ?_, ?_, ?_, ?_⟩
  · rw [handle_behavioral_block_run o ops cfg st ws m u r kl ml hkd hmd hu hact hr hth hget hblock]
    rfl
  · rw [hs]
    exact is_user_blocked_after_block o.logFail o.saveFail st.db s u u.uid m.sessionId
      m.sessionId r r "Behavioral anomaly detected in real-time monitoring"
      "REALTIME_ANOMALY_BLOCK" "Behavioral anomaly detected in real-time monitoring"
      (some r) hus
  · exact lookup_removeKey_self _ _
  · simp

/-- Witness for C2 at carol with both the audit write and the alert
delivery failing. -/
theorem claim_C2_block_then_log_then_alert_witness :
    dbLookup svcCarol.db (some "carol") = some ⟨2, true⟩ ∧
      analyze_real_time zeroOps svcCarol.analyzer (.pylist []) (.pylist [])
        (some "carol") = .ok (4 / 5) ∧
      ∃ st2 pre post,
        handle_behavioral_data { logFail := true, alertFail := true } zeroOps cfgDefault
            svcCarol 3 carolMsg =
          (st2, pre ++ [Eff.blockUser true, Eff.logEvent "REALTIME_ANOMALY_BLOCK" false,
            Eff.alert false] ++ post, none) ∧
        is_user_blocked false st2.db carolMsg.userId = true ∧
        st2.userSessions.lookup carolMsg.sessionId = none ∧
        Eff.record "session_terminated" ∈ post := by
  refine ⟨rfl, by with_unfolding_all decide, ?_⟩
  exact claim_C2_block_then_log_then_alert { logFail := true, alertFail := true } zeroOps
    cfgDefault svcCarol 3 carolMsg ⟨2, true⟩ (4 / 5) [] [] rfl rfl rfl rfl
    (by with_unfolding_all decide) (by with_unfolding_all decide) rfl rfl


/-! ## Identity-mismatch guard (claim C4) -/

/-- C4 (amended): when both the authenticated identity and the message
userId are Python-truthy (non-null and non-empty) and differ, the
connection is closed immediately with no dispatch: the state is unchanged
and the only effects are the mismatch log and the close.  A non-null but
falsy userId (the empty string) bypasses the guard and the message is
dispatched (see the counterexample). -/
theorem claim_C4_truthy_mismatch_closes (o : Oracle) (ops : FloatOps) (cfg : Settings)
    (st : SvcState) (ws : Nat) (authUser : Option String) (m : Msg)
    (ha : truthyO authUser = true) (hc : truthyO m.userId = true)
    (hne : authUser ≠ m.userId) :
    process_message o ops cfg st ws authUser (.parsed m) =
      (st, [.record "ws_user_mismatch", .closeWs ws 1008], none) := by
  have hb : (authUser == m.userId) = false := beq_eq_false_iff_ne.mpr hne
  simp only [process_message, ha, hc, hb, Bool.and_self, Bool.not_false, Bool.and_true,
    if_true]

/-- Witness for C4 with identities alice and mallory. -/
theorem claim_C4_truthy_mismatch_closes_witness :
    truthyO (some "alice") = true ∧ truthyO (some "mallory") = true ∧
      (some "alice" : Option String) ≠ some "mallory" ∧
      process_message oracleOk zeroOps cfgDefault svcEmpty 3 (some "alice")
          (.parsed { mtype := some "behavioral_data", userId := some "mallory" }) =
        (svcEmpty, [.record "ws_user_mismatch", .closeWs 3 1008], none) :=
  ⟨rfl, rfl, by decide,
    claim_C4_truthy_mismatch_closes oracleOk zeroOps cfgDefault svcEmpty 3 (some "alice")
      { mtype := some "behavioral_data", userId := some "mallory" } rfl rfl (by decide)⟩

/-- Counterexample to C4 as stated: with authenticated identity alice, a
behavioral_data message bearing the non-null userId "" (empty string,
which differs from alice) is NOT closed: the guard is skipped because ""
is falsy, the message is dispatched to the behavioral handler, and the
client receives an analysis_result response frame. -/
theorem claim_C4_truthy_mismatch_closes_counterexample :
    (some "" : Option String) ≠ none ∧
      (some "" : Option String) ≠ some "alice" ∧
      (process_message oracleOk zeroOps cfgDefault svcEmpty 3 (some "alice")
          (.parsed emptyUserMsg)).2 =
        ([.record "behavioral_received", .record "behavioral_scored",
          .sendFrame 3 (.analysisResult (some "s1") 0 none) true], none) := by
  refine ⟨by decide, by decide, ?_⟩
  with_unfolding_all decide

/-! ## user_authentication acknowledgement (claim C7) -/

/-- C7 (amended): processing a user_authentication message for a
non-blocked user that already has a profile acknowledges with
authentication_success, computes no risk score, and leaves the whole
service state (in particular the analyzer) unchanged, so every sample
scored afterwards receives exactly the score it would have received
anyway.  When no profile exists, the handler creates one whose per-user
model is fitted on the empty-data default features, after which samples
are routed to the per-user model instead of the global model and can
score differently (see the counterexample). -/
theorem claim_C7_auth_ack_profiled_no_risk_change (o : Oracle) (ops : FloatOps)
    (st : SvcState) (ws : Nat) (m : Msg)
    (hnb : is_user_blocked o.getFail st.db m.userId = false)
    (hp : (st.analyzer.userProfiles.lookup m.userId).isSome = true)
    (hsend : o.sendFail = false) :
    handle_user_authentication o ops st ws m =
      (st, [.record "user_auth_message", .record "profile_state",
        .sendFrame ws (.authenticationSuccess m.userId) true], none) ∧
    ∀ kd md uid,
      analyze_real_time ops (handle_user_authentication o ops st ws m).1.analyzer kd md uid =
        analyze_real_time ops st.analyzer kd md uid := by
  obtain ⟨p, hpv⟩ := Option.isSome_iff_exists.mp hp
  have hrun : handle_user_authentication o ops st ws m =
      (st, [.record "user_auth_message", .record "profile_state",
        .sendFrame ws (.authenticationSuccess m.userId) true], none) := by
    simp only [handle_user_authentication, hnb, Bool.false_eq_true, if_false, hpv,
      Option.isNone_some, hsend]
    rfl
  exact ⟨hrun, fun kd md uid => by rw [hrun]⟩

/-- Witness for C7 at the already-profiled alice. -/
theorem claim_C7_auth_ack_profiled_no_risk_change_witness :
    is_user_blocked false svcAliceProfiled.db (some "alice") = false ∧
      (svcAliceProfiled.analyzer.userProfiles.lookup (some "alice")).isSome = true ∧
      (handle_user_authentication oracleOk zeroOps svcAliceProfiled 3 authAliceMsg =
        (svcAliceProfiled, [.record "user_auth_message", .record "profile_state",
          .sendFrame 3 (.authenticationSuccess (some "alice")) true], none) ∧
      ∀ kd md uid,
        analyze_real_time zeroOps
            (handle_user_authentication oracleOk zeroOps svcAliceProfiled 3 authAliceMsg).1.analyzer
            kd md uid =
          analyze_real_time zeroOps svcAliceProfiled.analyzer kd md uid) :=
  ⟨rfl, rfl,
    claim_C7_auth_ack_profiled_no_risk_change oracleOk zeroOps svcAliceProfiled 3
      authAliceMsg rfl rfl rfl⟩

/-- Counterexample to C7 as stated: alice is non-blocked and unprofiled;
the user_authentication message is acknowledged with
authentication_success, but it creates a per-user profile, and the very
same behavioral sample that scored 0 beforehand (untrained global model)
scores 1/2 afterwards (per-user IsolationForest path with the fixed
normalisation applied to the model statistic). -/
theorem claim_C7_auth_ack_profiled_no_risk_change_counterexample :
    is_user_blocked false svcAlice.db (some "alice") = false ∧
      (handle_user_authentication oracleOk zeroOps svcAlice 3 authAliceMsg).2 =
        ([.record "user_auth_message", .record "profile_state",
          .sendFrame 3 (.authenticationSuccess (some "alice")) true], none) ∧
      analyze_real_time zeroOps svcAlice.analyzer (.pylist []) (.pylist [])
        (some "alice") = .ok 0 ∧
      analyze_real_time zeroOps
          (handle_user_authentication oracleOk zeroOps svcAlice 3 authAliceMsg).1.analyzer
          (.pylist []) (.pylist []) (some "alice") = .ok (1 / 2) ∧
      (1 : ℚ) / 2 ≠ 0 := by
  refine ⟨rfl, ?_, ?_, ?_, ?_⟩ <;> with_unfolding_all decide


/-! ## Blocked-path handling (claim C3) -/

theorem terminate_session_effs (o : Oracle) (st : SvcState) (sid username : Option String)
    (risk : ℚ) (reason : String) :
    (terminate_session o st sid username risk reason).2.filter isLogEff = [] ∧
      Eff.record "session_terminated" ∈ (terminate_session o st sid username risk reason).2 ∧
      ((terminate_session o st sid username risk reason).1).userSessions.lookup sid = none ∧
      ((terminate_session o st sid username risk reason).1).analyzer = st.analyzer ∧
      (terminate_session o st sid username risk reason).2.filter isAnalysisFrameEff = [] ∧
      ∀ n, Eff.saveProfile n ∉ (terminate_session o st sid username risk reason).2 := by
  unfold terminate_session
  rcases st.userSessions.lookup sid with _ | entry <;>
    simp [isLogEff, isAnalysisFrameEff, lookup_removeKey_self]

/-- C3 (amended): for an already-blocked user, each of the three message
types leads to exactly one audit write attempt, of the blocked-path event
kind, followed by session termination, with no scoring, no profile
change, no sample persistence and no analysis_result — provided, for
behavioral_data, that the keystrokeData and mouseData payloads have a
length (the receipt log calls len() on them before the blocked check, so
an unsized payload raises first; see the counterexample). -/
theorem claim_C3_blocked_always_terminates_audited (o : Oracle) (ops : FloatOps)
    (cfg : Settings) (st : SvcState) (ws : Nat) (authUser : Option String) (m : Msg)
    (hguard : (truthyO authUser && truthyO m.userId && !(authUser == m.userId)) = false)
    (hblocked : is_user_blocked o.getFail st.db m.userId = true)
    (htype : (m.mtype = some "behavioral_data" ∧
        (∃ q1, pyLen (m.keystrokeData.getD (.pylist [])) = .ok q1) ∧
        (∃ q2, pyLen (m.mouseData.getD (.pylist [])) = .ok q2)) ∨
      m.mtype = some "user_authentication" ∨ m.mtype = some "feedback") :
    ∃ st2 effs bt,
      process_message o ops cfg st ws authUser (.parsed m) = (st2, effs, none) ∧
      bt ∈ blockedEventTypes ∧
      effs.filter isLogEff = [Eff.logEvent bt (!o.logFail)] ∧
      Eff.record "session_terminated" ∈ effs ∧
      st2.userSessions.lookup m.sessionId = none ∧
      st2.analyzer = st.analyzer ∧
      effs.filter isAnalysisFrameEff = [] ∧
      ∀ n, Eff.saveProfile n ∉ effs := by
  rcases htype with ⟨hty, ⟨q1, hq1⟩, ⟨q2, hq2⟩⟩ | hty | hty
  ·
    have hT := terminate_session_effs o
      (SvcState.mk (log_security_event o.logFail st.db m.userId "BLOCKED_USER_ACTIVITY"
          "Blocked user attempted behavioral_data" m.sessionId (some 1)) st.analyzer st.userSessions)
      m.sessionId m.userId 1 blockedReason
    have hrun : process_message o ops cfg st ws authUser (.parsed m) =
        ((terminate_session o (SvcState.mk (log_security_event o.logFail st.db m.userId
        "BLOCKED_USER_ACTIVITY" "Blocked user attempted behavioral_data" m.sessionId
        (some 1)) st.analyzer st.userSessions) m.sessionId m.userId 1 blockedReason).1,
         [Eff.record "behavioral_received", Eff.logEvent "BLOCKED_USER_ACTIVITY" (!o.logFail)] ++ (terminate_session o (SvcState.mk (log_security_event o.logFail st.db m.userId
        "BLOCKED_USER_ACTIVITY" "Blocked user attempted behavioral_data" m.sessionId
        (some 1)) st.analyzer st.userSessions) m.sessionId m.userId 1 blockedReason).2,
         none) := by
      simp only [process_message, hguard, Bool.false_eq_true, if_false, hty, handle_behavioral_data, hq1, hq2,
        hblocked, if_true]
      rfl
    refine ⟨_, _, "BLOCKED_USER_ACTIVITY", hrun, by decide, ?_, ?_, ?_, ?_, ?_, ?_⟩
    · simp only [List.filter_append, hT.1, List.append_nil]
      rfl
    · simp only [List.mem_append]
      exact Or.inr hT.2.1
    · exact hT.2.2.1
    · exact hT.2.2.2.1
    · simp only [List.filter_append, hT.2.2.2.2.1, List.append_nil]
      rfl
    · intro n
      simp only [List.mem_append, List.mem_cons, List.not_mem_nil, or_false]
      rintro ((h | h) | h)
      all_goals try exact Eff.noConfusion h
      exact hT.2.2.2.2.2 n h
  ·
    have hne : m.mtype = some "behavioral_data" ↔ False := by rw [hty]; simp
    have hT := terminate_session_effs o
      (SvcState.mk (log_security_event o.logFail st.db m.userId "BLOCKED_USER_AUTH_ATTEMPT"
          "Blocked user attempted user_authentication" m.sessionId (some 1)) st.analyzer st.userSessions)
      m.sessionId m.userId 1 blockedReason
    have hrun : process_message o ops cfg st ws authUser (.parsed m) =
        ((terminate_session o (SvcState.mk (log_security_event o.logFail st.db m.userId
        "BLOCKED_USER_AUTH_ATTEMPT" "Blocked user attempted user_authentication" m.sessionId
        (some 1)) st.analyzer st.userSessions) m.sessionId m.userId 1 blockedReason).1,
         [Eff.record "user_auth_message", Eff.logEvent "BLOCKED_USER_AUTH_ATTEMPT" (!o.logFail)] ++ (terminate_session o (SvcState.mk (log_security_event o.logFail st.db m.userId
        "BLOCKED_USER_AUTH_ATTEMPT" "Blocked user attempted user_authentication" m.sessionId
        (some 1)) st.analyzer st.userSessions) m.sessionId m.userId 1 blockedReason).2,
         none) := by
      simp only [process_message, hguard, Bool.false_eq_true, if_false, hne, hty, handle_user_authentication,
        hblocked, if_true]
      rfl
    refine ⟨_, _, "BLOCKED_USER_AUTH_ATTEMPT", hrun, by decide, ?_, ?_, ?_, ?_, ?_, ?_⟩
    · simp only [List.filter_append, hT.1, List.append_nil]
      rfl
    · simp only [List.mem_append]
      exact Or.inr hT.2.1
    · exact hT.2.2.1
    · exact hT.2.2.2.1
    · simp only [List.filter_append, hT.2.2.2.2.1, List.append_nil]
      rfl
    · intro n
      simp only [List.mem_append, List.mem_cons, List.not_mem_nil, or_false]
      rintro ((h | h) | h)
      all_goals try exact Eff.noConfusion h
      exact hT.2.2.2.2.2 n h
  ·
    have hne : m.mtype = some "behavioral_data" ↔ False := by rw [hty]; simp
    have hne2 : m.mtype = some "user_authentication" ↔ False := by rw [hty]; simp
    have hT := terminate_session_effs o
      (SvcState.mk (log_security_event o.logFail st.db m.userId "BLOCKED_USER_FEEDBACK"
          "Blocked user attempted feedback" m.sessionId (some 1)) st.analyzer st.userSessions)
      m.sessionId m.userId 1 blockedReason
    have hrun : process_message o ops cfg st ws authUser (.parsed m) =
        ((terminate_session o (SvcState.mk (log_security_event o.logFail st.db m.userId
        "BLOCKED_USER_FEEDBACK" "Blocked user attempted feedback" m.sessionId
        (some 1)) st.analyzer st.userSessions) m.sessionId m.userId 1 blockedReason).1,
         [Eff.logEvent "BLOCKED_USER_FEEDBACK" (!o.logFail)] ++ (terminate_session o (SvcState.mk (log_security_event o.logFail st.db m.userId
        "BLOCKED_USER_FEEDBACK" "Blocked user attempted feedback" m.sessionId
        (some 1)) st.analyzer st.userSessions) m.sessionId m.userId 1 blockedReason).2,
         none) := by
      simp only [process_message, hguard, Bool.false_eq_true, if_false, hne, hne2, hty, handle_feedback,
        hblocked, if_true]
      rfl
    refine ⟨_, _, "BLOCKED_USER_FEEDBACK", hrun, by decide, ?_, ?_, ?_, ?_, ?_, ?_⟩
    · simp only [List.filter_append, hT.1, List.append_nil]
      rfl
    · simp only [List.mem_append]
      exact Or.inr hT.2.1
    · exact hT.2.2.1
    · exact hT.2.2.2.1
    · simp only [List.filter_append, hT.2.2.2.2.1, List.append_nil]
      rfl
    · intro n
      simp only [List.mem_append, List.mem_cons, List.not_mem_nil, or_false]
      rintro (h | h)
      all_goals try exact Eff.noConfusion h
      exact hT.2.2.2.2.2 n h

/-- Witness for C3: the blocked user bob sends a user_authentication
message; processing terminates the session and writes exactly one
BLOCKED_USER_AUTH_ATTEMPT audit-log effect, with no scoring frame and no
profile update. -/
theorem claim_C3_blocked_always_terminates_audited_witness :
    is_user_blocked oracleOk.getFail svcBlockedBob.db bobAuthMsg.userId = true ∧
    ∃ st2 effs bt,
      process_message oracleOk zeroOps cfgDefault svcBlockedBob 3 none (.parsed bobAuthMsg) =
        (st2, effs, none) ∧
      bt ∈ blockedEventTypes ∧
      effs.filter isLogEff = [Eff.logEvent bt (!oracleOk.logFail)] ∧
      Eff.record "session_terminated" ∈ effs ∧
      st2.userSessions.lookup bobAuthMsg.sessionId = none ∧
      st2.analyzer = svcBlockedBob.analyzer ∧
      effs.filter isAnalysisFrameEff = [] ∧
      ∀ n, Eff.saveProfile n ∉ effs :=
  ⟨by with_unfolding_all decide,
   claim_C3_blocked_always_terminates_audited oracleOk zeroOps cfgDefault svcBlockedBob 3
     none bobAuthMsg (by decide) (by with_unfolding_all decide) (Or.inr (Or.inl rfl))⟩

/-- Counterexample to C3 as stated ("regardless of message payload
contents"): the blocked user bob sends a behavioral_data message whose
keystrokeData is a bare number.  len() raises TypeError on it BEFORE the
blocked check runs, so the exception escapes to the session loop: no
audit-log effect is emitted, and the session is not terminated by the
handler. -/
theorem claim_C3_blocked_always_terminates_audited_counterexample :
    is_user_blocked oracleOk.getFail svcBlockedBob.db badBlockedMsg.userId = true ∧
    (process_message oracleOk zeroOps cfgDefault svcBlockedBob 3 none
        (.parsed badBlockedMsg)).2.2 = some PErr.typeError ∧
    (process_message oracleOk zeroOps cfgDefault svcBlockedBob 3 none
        (.parsed badBlockedMsg)).2.1.filter isLogEff = [] ∧
    Eff.record "session_terminated" ∉
      (process_message oracleOk zeroOps cfgDefault svcBlockedBob 3 none
        (.parsed badBlockedMsg)).2.1 := by
  refine ⟨?_, ?_, ?_, ?_⟩ <;> with_unfolding_all decide

/-! ## fail-open blocked check (claim C10) -/

/-- C10: when the user store has no record for the identity (a missing
row or a caught lookup exception, both modelled by get_user returning
none), is_user_blocked returns false — the check fails open — and the
id-keyed variant behaves the same; consequently processing any message
for such an identity never emits a blocked-user audit event, since every
blocked-path audit write is guarded by is_user_blocked. -/
theorem claim_C10_unknown_user_fails_open (o : Oracle) (ops : FloatOps)
    (cfg : Settings) (st : SvcState) (ws : Nat) (authUser : Option String)
    (m : Msg) (i : Nat)
    (h : get_user o.getFail st.db m.userId = none)
    (hid : get_user_by_id o.getFail st.db i = none) :
    is_user_blocked o.getFail st.db m.userId = false ∧
    is_user_id_blocked o.getFail st.db i = false ∧
    ∀ bt b, bt ∈ blockedEventTypes →
      Eff.logEvent bt b ∉ (process_message o ops cfg st ws authUser (.parsed m)).2.1 := by
  have hnb : is_user_blocked o.getFail st.db m.userId = false := by
    simp only [is_user_blocked, h]
  refine ⟨hnb, ?_, ?_⟩
  · simp only [is_user_id_blocked, hid]
  · intro bt b hbt hmem
    simp only [blockedEventTypes, List.mem_cons, List.not_mem_nil, or_false] at hbt
    simp only [process_message, handle_behavioral_data, handle_user_authentication,
      handle_feedback, terminate_session, hnb, Bool.false_eq_true, if_false] at hmem
    repeat' split at hmem
    all_goals rcases hbt with rfl | rfl | rfl
    all_goals simp_all [List.mem_append, List.mem_cons]

/-- Witness for C10: the userId "ghost" has no row in the empty user
store, the blocked check returns false for it (and for the unknown
numeric id 42), and processing its behavioral_data message emits no
blocked-user audit event — even though the risky analyzer scores it above
the block threshold. -/
theorem claim_C10_unknown_user_fails_open_witness :
    get_user oracleOk.getFail svcGhost.db ghostMsg.userId = none ∧
    get_user_by_id oracleOk.getFail svcGhost.db 42 = none ∧
    (is_user_blocked oracleOk.getFail svcGhost.db ghostMsg.userId = false ∧
     is_user_id_blocked oracleOk.getFail svcGhost.db 42 = false ∧
     ∀ bt b, bt ∈ blockedEventTypes →
       Eff.logEvent bt b ∉
         (process_message oracleOk zeroOps cfgDefault svcGhost 3 none
           (.parsed ghostMsg)).2.1) :=
  ⟨rfl, rfl, claim_C10_unknown_user_fails_open oracleOk zeroOps cfgDefault svcGhost 3
    none ghostMsg 42 rfl rfl⟩

end BAuth
